import Mathlib

/-!
Verification of the datamatrix-rs library (Data Matrix ECC 200 encoder and
decoder written in Rust) against its natural-language specification.

The Lean definitions below are a shallow embedding of the Rust source:

* the GF(256) arithmetic of src/errorcode/galois.rs (log and antilog tables
  generated by repeated multiplication with the primitive element),
* the symbol-size catalog of src/symbol_size.rs,
* the Reed-Solomon encoder of src/errorcode/mod.rs,
* the syndrome-based decoder of src/errorcode/decoding/syndrome_based.rs,
* the codeword placement traversal of src/placement.rs,
* the padding, ECI and randomization routines of src/encodation and
  src/decodation.

Machine integers (u8, u16, usize) are modelled as Nat with explicit bounds or
explicit wrap-arounds where the source relies on them; fallible operations
return Option or Except, with Option.none standing for a Rust panic such as an
out-of-bounds slice index.
-/

set_option maxRecDepth 1000000

namespace Datamatrix

/-! ## GF(256) arithmetic (src/errorcode/galois.rs)

The Rust source builds two lookup tables ANTI_LOG and LOG at compile time in
the function compute_alog_log: starting from p = 1 it repeatedly doubles p and
reduces by the polynomial 0x12D once p reaches 256, recording alog[i] = p and
log[p] = i for i = 0, ..., 254.

We model a byte-indexed table as a single natural number holding byte i at bit
position 8 * i; the table contents are given as literals and proved equal to
the output of the generation loop (theorems alogPacked_spec and
logPacked_spec), which is the faithful translation of compute_alog_log. -/

/-- One step of the table generation loop of compute_alog_log:
p is doubled and reduced by 0x12D if it left the byte range. -/
def gfNextPow (p : Nat) : Nat :=
  if 2 * p ≥ 256 then 2 * p ^^^ 0x12D else 2 * p

/-- The list of values taken by p in compute_alog_log, that is the ANTI_LOG
table: entry i is the i-th power of the primitive element x = 2. -/
def alogList : List Nat :=
  ((List.range 255).foldl (fun (acc : List Nat × Nat) _ =>
    (acc.1 ++ [acc.2], gfNextPow acc.2)) ([], 1)).1

/-- Pack a list of bytes into one natural number, byte i at bit position 8*i. -/
def packBytes (l : List Nat) : Nat :=
  l.foldr (fun b acc => b + 256 * acc) 0

/-- The ANTI_LOG table of galois.rs, packed into one natural number
(value given as a literal; theorem alogPacked_spec links it to the
generation loop). -/
def alogPacked : Nat := 74113578068721496020453224891373269560840312743537427539376386303796706541951737608362005261165626598478448116391108206410251867222750680289859891055953151503340524144012101632969293581314672591341315248802032630758100080432109905934330662946948403975444937965098446446572115220866432411100887340013153562161675801944450827992823828505944794352529463420436338145009884542863490002864910301968470435185961098541820052584360224623655439627124949927180071362302658484174051972184794259812187871494688604273004236535314167203352909357813487493038016134480053245859759431707216455029793333007078475838830124430071693825

theorem alogPacked_spec : alogPacked = packBytes alogList := by decide

/-- The LOG table of galois.rs (log[p] = i whenever alog[i] = p, log[0]
unused and zero), packed into one natural number. -/
def logPacked : Nat := 19023263400047969703917998474215529306543314219530594168281454861348656516361464280926479253613650484224334145095789280367891680668533513894020917487309156463073956935097940827711221921935921761036247808492023318209277353145016539976729123472067079843876421474407858884755725643681844425347235475588569134072337270214477271890913134105734187246662713635644807447246617271933992108277178435463717955592422828726501571502540655982721090921171436622952824284031104054110005206578887255652106460219091498173018059354806137366014552943107737612905046494579084899766167052039344571374159437576258616684278637091109610782720

/-- The LOG table as written by the generation loop: the byte at position
8 * p receives the exponent i for each table entry alog[i] = p (the written
positions are pairwise distinct because the 255 powers of the primitive
element are pairwise distinct, so bitwise or models the array writes). -/
def logPackedGen : Nat :=
  (alogList.enum.foldl (fun acc (pi : Nat × Nat) =>
    acc ||| (pi.1 <<< (8 * pi.2))) 0)

theorem logPacked_spec : logPacked = logPackedGen := by decide

/-- Table lookup: value of ANTI_LOG at index i (i in 0..=254). -/
def alogT (i : Nat) : Nat := (alogPacked >>> (8 * i)) &&& 255

/-- Table lookup: value of LOG at index x (x in 1..=255; 0 unused). -/
def logT (x : Nat) : Nat := (logPacked >>> (8 * x)) &&& 255

/-- GF(256) multiplication on raw byte values, translated from the impl of
Mul for GF in galois.rs: zero absorbs, otherwise add the logs mod 255 and map
back through ANTI_LOG. -/
def gfmulNat (a b : Nat) : Nat :=
  if a = 0 ∨ b = 0 then 0
  else alogT ((logT a + logT b) % 255)

/-- GF(256) division on raw byte values, from the impl of Div for GF in
galois.rs: division by zero aborts in the source and is modelled by none. -/
def gfdivNat (a b : Nat) : Option Nat :=
  if b = 0 then none
  else if a = 0 then some 0
  else some (alogT (((logT a + 255) - logT b) % 255))

theorem alogT_lt (i : Nat) : alogT i < 256 :=
  Nat.lt_succ_of_le (Nat.and_le_right)

theorem logT_lt_256 (x : Nat) : logT x < 256 :=
  Nat.lt_succ_of_le (Nat.and_le_right)

theorem alog_nonzero : ∀ i < 255, alogT i ≠ 0 := by decide

theorem log_alog : ∀ i < 255, logT (alogT i) = i := by decide

theorem alog_log : ∀ x < 256, x ≠ 0 → alogT (logT x) = x := by decide

theorem log_lt : ∀ x < 256, logT x < 255 := by decide

theorem logT_one : logT 1 = 0 := by decide

theorem gfNextPow_lt : ∀ x < 256, gfNextPow x < 256 := by decide

theorem alog_iter : ∀ i < 255, alogT i = gfNextPow^[i] 1 := by decide

theorem gfNextPow_iter_255 : gfNextPow^[255] 1 = 1 := by decide

theorem gfmulNat_lt (a b : Nat) : gfmulNat a b < 256 := by
  unfold gfmulNat
  split
  · exact Nat.zero_lt_succ _
  · exact alogT_lt _

theorem gfmulNat_comm (a b : Nat) : gfmulNat a b = gfmulNat b a := by
  unfold gfmulNat
  rw [Nat.add_comm (logT a)]
  by_cases h : a = 0 ∨ b = 0
  · rw [if_pos h, if_pos (Or.symm h)]
  · rw [if_neg h, if_neg (fun hh => h (Or.symm hh))]

theorem gfmulNat_eq_of_ne {a b : Nat} (ha : a ≠ 0) (hb : b ≠ 0) :
    gfmulNat a b = alogT ((logT a + logT b) % 255) :=
  if_neg (by simp [ha, hb])

theorem gfmulNat_ne_zero {a b : Nat} (ha : a ≠ 0) (hb : b ≠ 0) :
    gfmulNat a b ≠ 0 := by
  unfold gfmulNat
  rw [if_neg (by simp [ha, hb])]
  exact alog_nonzero _ (Nat.mod_lt _ (by norm_num))

theorem log_gfmulNat {a b : Nat} (ha : a ≠ 0) (hb : b ≠ 0) :
    logT (gfmulNat a b) = (logT a + logT b) % 255 := by
  unfold gfmulNat
  rw [if_neg (by simp [ha, hb])]
  exact log_alog _ (Nat.mod_lt _ (by norm_num))

theorem gfmulNat_assoc (a b c : Nat) :
    gfmulNat (gfmulNat a b) c = gfmulNat a (gfmulNat b c) := by
  by_cases h0a : a = 0
  · simp [h0a, gfmulNat]
  by_cases h0b : b = 0
  · simp [h0b, gfmulNat]
  by_cases h0c : c = 0
  · simp [h0c, gfmulNat]
  have hab := gfmulNat_ne_zero h0a h0b
  have hbc := gfmulNat_ne_zero h0b h0c
  rw [gfmulNat_eq_of_ne hab h0c, gfmulNat_eq_of_ne h0a hbc,
    log_gfmulNat h0a h0b, log_gfmulNat h0b h0c,
    Nat.mod_add_mod, Nat.add_mod_mod, Nat.add_assoc]

theorem gfmulNat_one {a : Nat} (ha : a < 256) : gfmulNat 1 a = a := by
  by_cases h0 : a = 0
  · simp [h0, gfmulNat]
  · unfold gfmulNat
    rw [if_neg (by simp [h0]), logT_one, Nat.zero_add,
      Nat.mod_eq_of_lt (log_lt a ha), alog_log a ha h0]

theorem gfNextPow_zero : gfNextPow 0 = 0 := by decide

theorem gfNextPow_iter_zero (k : Nat) : gfNextPow^[k] 0 = 0 := by
  induction k with
  | zero => rfl
  | succ n ih => rw [Function.iterate_succ_apply, gfNextPow_zero, ih]

theorem gfNextPow_iter_lt {x : Nat} (hx : x < 256) (k : Nat) :
    gfNextPow^[k] x < 256 := by
  induction k with
  | zero => exact hx
  | succ n ih => rw [Function.iterate_succ_apply']; exact gfNextPow_lt _ ih

theorem gfNextPow_iter_255_mul (q : Nat) : gfNextPow^[255 * q] 1 = 1 := by
  induction q with
  | zero => rfl
  | succ n ih =>
      rw [Nat.mul_succ, Function.iterate_add_apply, gfNextPow_iter_255, ih]

theorem gfNextPow_iter_mod (m : Nat) :
    gfNextPow^[m] 1 = gfNextPow^[m % 255] 1 := by
  conv_lhs => rw [← Nat.mod_add_div m 255, Function.iterate_add_apply,
    gfNextPow_iter_255_mul]

/-- Multiplication by a nonzero element a is iteration of the multiply-by-x
step logT a times. -/
theorem gfmulNat_eq_iter {a b : Nat} (ha : a < 256) (hb : b < 256)
    (h0a : a ≠ 0) : gfmulNat a b = gfNextPow^[logT a] b := by
  by_cases h0b : b = 0
  · simp [h0b, gfmulNat, gfNextPow_iter_zero]
  · have hb' : b = gfNextPow^[logT b] 1 := by
      rw [← alog_iter _ (log_lt b hb), alog_log b hb h0b]
    unfold gfmulNat
    rw [if_neg (by simp [h0a, h0b]),
      alog_iter _ (Nat.mod_lt _ (by norm_num)), ← gfNextPow_iter_mod,
      Function.iterate_add_apply]
    rw [← hb']

theorem xor_xor_cancel (a b c : Nat) : (a ^^^ c) ^^^ (b ^^^ c) = a ^^^ b := by
  rw [Nat.xor_assoc, Nat.xor_comm b c, ← Nat.xor_assoc c c b, Nat.xor_self,
    Nat.zero_xor]

theorem xor_right_swap (a b c : Nat) : (a ^^^ b) ^^^ c = (a ^^^ c) ^^^ b := by
  rw [Nat.xor_assoc, Nat.xor_comm b c, ← Nat.xor_assoc]

theorem two_mul_xor (x y : Nat) : 2 * (x ^^^ y) = 2 * x ^^^ 2 * y := by
  have h : ∀ z : Nat, 2 * z = z <<< 1 := fun z => by
    rw [Nat.shiftLeft_eq, pow_one, Nat.mul_comm]
  rw [h, h, h]
  apply Nat.eq_of_testBit_eq
  intro i
  simp only [Nat.testBit_shiftLeft, Nat.testBit_xor]
  cases i with
  | zero => simp
  | succ j => simp

theorem testBit8 {u : Nat} (h : u < 512) : u.testBit 8 = decide (u ≥ 256) := by
  rw [Nat.testBit_to_div_mod]
  exact decide_eq_decide.mpr (by omega)

theorem lt_512_of_lt_256 {x : Nat} (hx : x < 256) : 2 * x < 512 := by omega

theorem xor_lt_512 {u v : Nat} (hu : u < 512) (hv : v < 512) :
    u ^^^ v < 512 := by
  have : (512 : Nat) = 2 ^ 9 := by norm_num
  rw [this] at hu hv ⊢
  exact Nat.xor_lt_two_pow hu hv

theorem xor_lt_256 {u v : Nat} (hu : u < 256) (hv : v < 256) :
    u ^^^ v < 256 := by
  have : (256 : Nat) = 2 ^ 8 := by norm_num
  rw [this] at hu hv ⊢
  exact Nat.xor_lt_two_pow hu hv

/-- The multiply-by-x step of the table generation is additive: this is the
linearity that ultimately gives distributivity of the table-based GF(256)
multiplication over xor. -/
theorem gfNextPow_xor {x y : Nat} (hx : x < 256) (hy : y < 256) :
    gfNextPow (x ^^^ y) = gfNextPow x ^^^ gfNextPow y := by
  have hu : 2 * x < 512 := lt_512_of_lt_256 hx
  have hv : 2 * y < 512 := lt_512_of_lt_256 hy
  have huv : 2 * x ^^^ 2 * y < 512 := xor_lt_512 hu hv
  have hbit := Nat.testBit_xor (2 * x) (2 * y) 8
  rw [testBit8 hu, testBit8 hv, testBit8 huv] at hbit
  unfold gfNextPow
  rw [two_mul_xor]
  by_cases hx8 : 2 * x ≥ 256 <;> by_cases hy8 : 2 * y ≥ 256
  · rw [decide_eq_true hx8, decide_eq_true hy8] at hbit
    simp at hbit
    rw [if_neg (by omega), if_pos hx8, if_pos hy8, xor_xor_cancel]
  · rw [decide_eq_true hx8, decide_eq_false hy8] at hbit
    simp at hbit
    rw [if_pos hbit, if_pos hx8, if_neg hy8, xor_right_swap]
  · rw [decide_eq_false hx8, decide_eq_true hy8] at hbit
    simp at hbit
    rw [if_pos hbit, if_neg hx8, if_pos hy8, Nat.xor_assoc]
  · rw [decide_eq_false hx8, decide_eq_false hy8] at hbit
    simp at hbit
    rw [if_neg (by omega), if_neg hx8, if_neg hy8]

theorem gfNextPow_iter_xor (k : Nat) {x y : Nat} (hx : x < 256)
    (hy : y < 256) :
    gfNextPow^[k] (x ^^^ y) = gfNextPow^[k] x ^^^ gfNextPow^[k] y := by
  induction k generalizing x y with
  | zero => rfl
  | succ n ih =>
      rw [Function.iterate_succ_apply, Function.iterate_succ_apply,
        Function.iterate_succ_apply, gfNextPow_xor hx hy,
        ih (gfNextPow_lt _ hx) (gfNextPow_lt _ hy)]

theorem gfmulNat_zero_right (a : Nat) : gfmulNat a 0 = 0 := by
  simp [gfmulNat]

theorem gfmulNat_zero_left (a : Nat) : gfmulNat 0 a = 0 := by
  simp [gfmulNat]

/-- Distributivity of the table-based multiplication over xor. -/
theorem gfmulNat_xor {a b c : Nat} (ha : a < 256) (hb : b < 256)
    (hc : c < 256) : gfmulNat a (b ^^^ c) = gfmulNat a b ^^^ gfmulNat a c := by
  by_cases h0a : a = 0
  · subst h0a
    simp [gfmulNat_zero_left]
  by_cases h0b : b = 0
  · subst h0b
    rw [Nat.zero_xor, gfmulNat_zero_right, Nat.zero_xor]
  by_cases h0c : c = 0
  · subst h0c
    rw [Nat.xor_zero, gfmulNat_zero_right, Nat.xor_zero]
  by_cases hbc : b ^^^ c = 0
  · rw [hbc, Nat.xor_eq_zero.mp hbc, gfmulNat_zero_right, Nat.xor_self]
  · rw [gfmulNat_eq_iter ha (xor_lt_256 hb hc) h0a, gfmulNat_eq_iter ha hb h0a,
      gfmulNat_eq_iter ha hc h0a, gfNextPow_iter_xor _ hb hc]

/-! ## The GF(256) element type (struct GF in galois.rs) -/

/-- A GF(256) element: a byte value (the struct GF of galois.rs wraps u8). -/
structure GF where
  val : Nat
  lt : val < 256
deriving DecidableEq

theorem GF.eq_of_val {a b : GF} (h : a.val = b.val) : a = b := by
  cases a; cases b; simpa using h

instance : Zero GF := ⟨⟨0, by norm_num⟩⟩

instance : One GF := ⟨⟨1, by norm_num⟩⟩

/-- Addition in GF(256) is xor (impl Add for GF in galois.rs). -/
instance : Add GF := ⟨fun a b => ⟨a.val ^^^ b.val, xor_lt_256 a.lt b.lt⟩⟩

/-- Multiplication in GF(256) through the log tables (impl Mul for GF). -/
instance : Mul GF := ⟨fun a b => ⟨gfmulNat a.val b.val, gfmulNat_lt _ _⟩⟩

/-- Negation in GF(256) is the identity (impl Neg for GF). -/
instance : Neg GF := ⟨fun a => a⟩

@[simp] theorem GF.val_zero : (0 : GF).val = 0 := rfl

@[simp] theorem GF.val_one : (1 : GF).val = 1 := rfl

@[simp] theorem GF.val_add (a b : GF) : (a + b).val = a.val ^^^ b.val := rfl

@[simp] theorem GF.val_mul (a b : GF) : (a * b).val = gfmulNat a.val b.val := rfl

@[simp] theorem GF.val_neg (a : GF) : (-a).val = a.val := rfl

/-- The operations of galois.rs form a commutative ring (indeed a field; the
ring structure is all the Reed-Solomon arguments below need). -/
instance : CommRing GF where
  add_assoc a b c := GF.eq_of_val (Nat.xor_assoc _ _ _)
  zero_add a := GF.eq_of_val (Nat.zero_xor _)
  add_zero a := GF.eq_of_val (Nat.xor_zero _)
  add_comm a b := GF.eq_of_val (Nat.xor_comm _ _)
  neg_add_cancel a := GF.eq_of_val (Nat.xor_self _)
  mul_assoc a b c := GF.eq_of_val (by exact gfmulNat_assoc a.val b.val c.val)
  one_mul a := GF.eq_of_val (by exact gfmulNat_one a.lt)
  mul_one a := GF.eq_of_val (by
    show gfmulNat a.val 1 = a.val
    rw [gfmulNat_comm]; exact gfmulNat_one a.lt)
  left_distrib a b c := GF.eq_of_val (by exact gfmulNat_xor a.lt b.lt c.lt)
  right_distrib a b c := GF.eq_of_val (by
    show gfmulNat (a.val ^^^ b.val) c.val =
      gfmulNat a.val c.val ^^^ gfmulNat b.val c.val
    rw [gfmulNat_comm _ c.val, gfmulNat_comm a.val c.val,
      gfmulNat_comm b.val c.val]
    exact gfmulNat_xor c.lt a.lt b.lt)
  zero_mul a := GF.eq_of_val (by exact gfmulNat_zero_left a.val)
  mul_zero a := GF.eq_of_val (by exact gfmulNat_zero_right a.val)
  mul_comm a b := GF.eq_of_val (by exact gfmulNat_comm a.val b.val)
  nsmul := nsmulRec
  zsmul := zsmulRec

/-- Characteristic two: every element is its own additive inverse. -/
theorem GF.add_self (a : GF) : a + a = 0 :=
  GF.eq_of_val (Nat.xor_self _)

/-- In characteristic two a + b = 0 forces a = b. -/
theorem GF.eq_of_add_eq_zero {a b : GF} (h : a + b = 0) : a = b :=
  GF.eq_of_val (Nat.xor_eq_zero.mp (congrArg GF.val h))

/-- The primitive element x = 2 of galois.rs. -/
def GF.x : GF := ⟨2, by norm_num⟩

/-- Entry i of the ANTI_LOG table as a field element
(GF::primitive_power in galois.rs). -/
def GF.primitivePower (i : Nat) : GF := ⟨alogT i, alogT_lt i⟩

/-! ## Symbol size catalog (src/symbol_size.rs) -/

/-- The symbol sizes supported by Data Matrix (enum SymbolSize). -/
inductive SymbolSize where
  | Square10
  | Square12
  | Square14
  | Square16
  | Square18
  | Square20
  | Square22
  | Square24
  | Square26
  | Square32
  | Square36
  | Square40
  | Square44
  | Square48
  | Square52
  | Square64
  | Square72
  | Square80
  | Square88
  | Square96
  | Square104
  | Square120
  | Square132
  | Square144
  | Rect8x18
  | Rect8x32
  | Rect12x26
  | Rect12x36
  | Rect16x36
  | Rect16x48
  | Rect8x48
  | Rect8x64
  | Rect8x80
  | Rect8x96
  | Rect8x120
  | Rect8x144
  | Rect12x64
  | Rect12x88
  | Rect16x64
  | Rect20x36
  | Rect20x44
  | Rect20x64
  | Rect22x48
  | Rect24x48
  | Rect24x64
  | Rect26x40
  | Rect26x48
  | Rect26x64
deriving DecidableEq

/-- Geometry and error-setup data of one symbol size (struct BlockSetup). -/
structure BlockSetup where
  num_ecc_blocks : Nat
  num_ecc_per_block : Nat
  width : Nat
  height : Nat
  extra_vertical_alignments : Nat
  extra_horizontal_alignments : Nat
deriving DecidableEq

namespace SymbolSize

/-- Number of data codewords (fn num_data_codewords). -/
def num_data_codewords : SymbolSize → Nat
  | Square10 => 3
  | Square12 => 5
  | Square14 => 8
  | Square16 => 12
  | Square18 => 18
  | Square20 => 22
  | Square22 => 30
  | Square24 => 36
  | Square26 => 44
  | Square32 => 62
  | Square36 => 86
  | Square40 => 114
  | Square44 => 144
  | Square48 => 174
  | Square52 => 204
  | Square64 => 280
  | Square72 => 368
  | Square80 => 456
  | Square88 => 576
  | Square96 => 696
  | Square104 => 816
  | Square120 => 1050
  | Square132 => 1304
  | Square144 => 1558
  | Rect8x18 => 5
  | Rect8x32 => 10
  | Rect12x26 => 16
  | Rect12x36 => 22
  | Rect16x36 => 32
  | Rect16x48 => 49
  | Rect8x48 => 18
  | Rect8x64 => 24
  | Rect8x80 => 32
  | Rect8x96 => 38
  | Rect8x120 => 49
  | Rect8x144 => 63
  | Rect12x64 => 43
  | Rect12x88 => 64
  | Rect16x64 => 62
  | Rect20x36 => 44
  | Rect20x44 => 56
  | Rect20x64 => 84
  | Rect22x48 => 72
  | Rect24x48 => 80
  | Rect24x64 => 108
  | Rect26x40 => 70
  | Rect26x48 => 90
  | Rect26x64 => 118

/-- Maximum and minimum input capacity (fn capacity); the pair is (max, min). -/
def capacity : SymbolSize → Nat × Nat
  | Square10 => (6, 1)
  | Square12 => (10, 3)
  | Square14 => (16, 6)
  | Square16 => (24, 10)
  | Square18 => (36, 16)
  | Square20 => (44, 20)
  | Square22 => (60, 28)
  | Square24 => (72, 34)
  | Square26 => (88, 42)
  | Square32 => (124, 60)
  | Square36 => (172, 84)
  | Square40 => (228, 112)
  | Square44 => (288, 142)
  | Square48 => (348, 172)
  | Square52 => (408, 202)
  | Square64 => (560, 277)
  | Square72 => (736, 365)
  | Square80 => (912, 453)
  | Square88 => (1152, 573)
  | Square96 => (1392, 693)
  | Square104 => (1632, 813)
  | Square120 => (2100, 1047)
  | Square132 => (2608, 1301)
  | Square144 => (3116, 1555)
  | Rect8x18 => (10, 3)
  | Rect8x32 => (20, 8)
  | Rect12x26 => (32, 14)
  | Rect12x36 => (44, 20)
  | Rect16x36 => (64, 30)
  | Rect16x48 => (98, 47)
  | Rect8x48 => (36, 16)
  | Rect8x64 => (48, 22)
  | Rect8x80 => (64, 30)
  | Rect8x96 => (76, 36)
  | Rect8x120 => (98, 47)
  | Rect8x144 => (126, 61)
  | Rect12x64 => (86, 41)
  | Rect12x88 => (128, 62)
  | Rect16x64 => (124, 60)
  | Rect20x36 => (88, 42)
  | Rect20x44 => (112, 54)
  | Rect20x64 => (168, 82)
  | Rect22x48 => (144, 70)
  | Rect24x48 => (160, 78)
  | Rect24x64 => (216, 106)
  | Rect26x40 => (140, 68)
  | Rect26x48 => (180, 88)
  | Rect26x64 => (236, 116)

/-- Block setup table (fn block_setup). -/
def block_setup : SymbolSize → BlockSetup
  | Square10 => ⟨1, 5, 10, 10, 0, 0⟩
  | Square12 => ⟨1, 7, 12, 12, 0, 0⟩
  | Square14 => ⟨1, 10, 14, 14, 0, 0⟩
  | Square16 => ⟨1, 12, 16, 16, 0, 0⟩
  | Square18 => ⟨1, 14, 18, 18, 0, 0⟩
  | Square20 => ⟨1, 18, 20, 20, 0, 0⟩
  | Square22 => ⟨1, 20, 22, 22, 0, 0⟩
  | Square24 => ⟨1, 24, 24, 24, 0, 0⟩
  | Square26 => ⟨1, 28, 26, 26, 0, 0⟩
  | Square32 => ⟨1, 36, 32, 32, 1, 1⟩
  | Square36 => ⟨1, 42, 36, 36, 1, 1⟩
  | Square40 => ⟨1, 48, 40, 40, 1, 1⟩
  | Square44 => ⟨1, 56, 44, 44, 1, 1⟩
  | Square48 => ⟨1, 68, 48, 48, 1, 1⟩
  | Square52 => ⟨2, 42, 52, 52, 1, 1⟩
  | Square64 => ⟨2, 56, 64, 64, 3, 3⟩
  | Square72 => ⟨4, 36, 72, 72, 3, 3⟩
  | Square80 => ⟨4, 48, 80, 80, 3, 3⟩
  | Square88 => ⟨4, 56, 88, 88, 3, 3⟩
  | Square96 => ⟨4, 68, 96, 96, 3, 3⟩
  | Square104 => ⟨6, 56, 104, 104, 3, 3⟩
  | Square120 => ⟨6, 68, 120, 120, 5, 5⟩
  | Square132 => ⟨8, 62, 132, 132, 5, 5⟩
  | Square144 => ⟨10, 62, 144, 144, 5, 5⟩
  | Rect8x18 => ⟨1, 7, 18, 8, 0, 0⟩
  | Rect8x32 => ⟨1, 11, 32, 8, 1, 0⟩
  | Rect12x26 => ⟨1, 14, 26, 12, 0, 0⟩
  | Rect12x36 => ⟨1, 18, 36, 12, 1, 0⟩
  | Rect16x36 => ⟨1, 24, 36, 16, 1, 0⟩
  | Rect16x48 => ⟨1, 28, 48, 16, 1, 0⟩
  | Rect8x48 => ⟨1, 15, 48, 8, 1, 0⟩
  | Rect8x64 => ⟨1, 18, 64, 8, 3, 0⟩
  | Rect8x80 => ⟨1, 22, 80, 8, 3, 0⟩
  | Rect8x96 => ⟨1, 28, 96, 8, 3, 0⟩
  | Rect8x120 => ⟨1, 32, 120, 8, 5, 0⟩
  | Rect8x144 => ⟨1, 36, 144, 8, 5, 0⟩
  | Rect12x64 => ⟨1, 27, 64, 12, 3, 0⟩
  | Rect12x88 => ⟨1, 36, 88, 12, 3, 0⟩
  | Rect16x64 => ⟨1, 36, 64, 16, 3, 0⟩
  | Rect20x36 => ⟨1, 28, 36, 20, 1, 0⟩
  | Rect20x44 => ⟨1, 34, 44, 20, 1, 0⟩
  | Rect20x64 => ⟨1, 42, 64, 20, 3, 0⟩
  | Rect22x48 => ⟨1, 38, 48, 22, 1, 0⟩
  | Rect24x48 => ⟨1, 41, 48, 24, 1, 0⟩
  | Rect24x64 => ⟨1, 46, 64, 24, 3, 0⟩
  | Rect26x40 => ⟨1, 38, 40, 26, 1, 0⟩
  | Rect26x48 => ⟨1, 42, 48, 26, 1, 0⟩
  | Rect26x64 => ⟨1, 50, 64, 26, 3, 0⟩

/-- Squares (fn is_square). -/
def is_square : SymbolSize → Bool
  | Square10 => true
  | Square12 => true
  | Square14 => true
  | Square16 => true
  | Square18 => true
  | Square20 => true
  | Square22 => true
  | Square24 => true
  | Square26 => true
  | Square32 => true
  | Square36 => true
  | Square40 => true
  | Square44 => true
  | Square48 => true
  | Square52 => true
  | Square64 => true
  | Square72 => true
  | Square80 => true
  | Square88 => true
  | Square96 => true
  | Square104 => true
  | Square120 => true
  | Square132 => true
  | Square144 => true
  | _ => false

/-- Rectangular-extension sizes (fn is_dmre). -/
def is_dmre : SymbolSize → Bool
  | Rect8x48 => true
  | Rect8x64 => true
  | Rect8x80 => true
  | Rect8x96 => true
  | Rect8x120 => true
  | Rect8x144 => true
  | Rect12x64 => true
  | Rect12x88 => true
  | Rect16x64 => true
  | Rect20x36 => true
  | Rect20x44 => true
  | Rect20x64 => true
  | Rect22x48 => true
  | Rect24x48 => true
  | Rect24x64 => true
  | Rect26x40 => true
  | Rect26x48 => true
  | Rect26x64 => true
  | _ => false

/-- Sizes with the 2x2 corner padding pattern (fn has_padding_modules). -/
def has_padding_modules : SymbolSize → Bool
  | Square12 => true
  | Square16 => true
  | Square20 => true
  | Square24 => true
  | _ => false

/-- Total number of codewords, data plus error (fn num_codewords). -/
def num_codewords (s : SymbolSize) : Nat :=
  s.num_data_codewords + (s.block_setup).num_ecc_blocks * (s.block_setup).num_ecc_per_block

end SymbolSize

/-- Content width Wc = W - 2 - 2v (fn BlockSetup::content_width). -/
def BlockSetup.content_width (b : BlockSetup) : Nat :=
  b.width - 2 - b.extra_vertical_alignments * 2

/-- Content height Hc = H - 2 - 2h (fn BlockSetup::content_height). -/
def BlockSetup.content_height (b : BlockSetup) : Nat :=
  b.height - 2 - b.extra_horizontal_alignments * 2

/-- The full catalog in the declaration order of the constant SYMBOL_SIZES. -/
def SYMBOL_SIZES : List SymbolSize := [
  SymbolSize.Square10, SymbolSize.Square12, SymbolSize.Rect8x18, SymbolSize.Square14,
  SymbolSize.Rect8x32, SymbolSize.Square16, SymbolSize.Rect12x26, SymbolSize.Square18,
  SymbolSize.Rect8x48, SymbolSize.Square20, SymbolSize.Rect12x36, SymbolSize.Rect8x64,
  SymbolSize.Square22, SymbolSize.Rect16x36, SymbolSize.Rect8x80, SymbolSize.Square24,
  SymbolSize.Rect8x96, SymbolSize.Rect12x64, SymbolSize.Square26, SymbolSize.Rect20x36,
  SymbolSize.Rect16x48, SymbolSize.Rect8x120, SymbolSize.Rect20x44, SymbolSize.Square32,
  SymbolSize.Rect16x64, SymbolSize.Rect8x144, SymbolSize.Rect12x88, SymbolSize.Rect26x40,
  SymbolSize.Rect22x48, SymbolSize.Rect24x48, SymbolSize.Rect20x64, SymbolSize.Square36,
  SymbolSize.Rect26x48, SymbolSize.Rect24x64, SymbolSize.Square40, SymbolSize.Rect26x64,
  SymbolSize.Square44, SymbolSize.Square48, SymbolSize.Square52, SymbolSize.Square64,
  SymbolSize.Square72, SymbolSize.Square80, SymbolSize.Square88, SymbolSize.Square96,
  SymbolSize.Square104, SymbolSize.Square120, SymbolSize.Square132, SymbolSize.Square144]
/-- The sort key of the Ord impl for SymbolSize: number of data codewords,
then width squared plus height squared. -/
def symbolKey (s : SymbolSize) : Nat × Nat :=
  (s.num_data_codewords, (s.block_setup).width ^ 2 + (s.block_setup).height ^ 2)

/-- The comparison used to keep a SymbolList ordered (impl Ord for
SymbolSize, used through the BTreeSet holding the list). -/
def symbolLE (a b : SymbolSize) : Bool :=
  decide (symbolKey a ≤ symbolKey b)

/-- Ordered insertion of one symbol, the way the BTreeSet holding a
SymbolList places each inserted element by its Ord key. -/
def insertSymbol (x : SymbolSize) : List SymbolSize → List SymbolSize
  | [] => [x]
  | y :: ys => if symbolLE x y then x :: y :: ys else y :: insertSymbol x ys

/-- Build the ordered list of a set of symbols by repeated insertion. -/
def sortSymbols : List SymbolSize → List SymbolSize
  | [] => []
  | x :: xs => insertSymbol x (sortSymbols xs)

/-- The default symbol list (impl Default for SymbolList): all standard,
non-DMRE sizes, held in ascending Ord order by the BTreeSet. -/
def defaultSymbolList : List SymbolSize :=
  sortSymbols (SYMBOL_SIZES.filter (fun s => !s.is_dmre))

/-- First symbol that can hold the requested number of data codewords
(fn SymbolList::first_symbol_big_enough_for). -/
def first_symbol_big_enough_for (l : List SymbolSize) (size_needed : Nat) :
    Option SymbolSize :=
  l.find? (fun s => size_needed ≤ s.num_data_codewords)

/-! ## Codeword constants (src/encodation/ascii.rs and mod.rs) -/

def PAD : Nat := 129
def UNLATCH : Nat := 254
def ECI_ESCAPE : Nat := 241

/-- The six data encodation modes (enum EncodationType in
src/encodation/encodation_type.rs). -/
inductive EncodationType where
  | Ascii
  | C40
  | Text
  | X12
  | Edifact
  | Base256
deriving DecidableEq

/-! ## Base256 randomization (src/encodation/base256.rs and
src/decodation/mod.rs) -/

/-- The 255-state randomization (fn randomize_255_state): ch is the byte and
pos the 1-based position of the codeword in the full codeword vector. -/
def randomize_255_state (ch pos : Nat) : Nat :=
  let pseudo_random := (149 * pos) % 255 + 1
  let tmp := ch + pseudo_random
  if tmp ≤ 255 then tmp else tmp - 256

/-- The inverse 255-state derandomization (fn derandomize_255_state): the
source computes ch - pseudo_random in i16 and adds 256 when negative. -/
def derandomize_255_state (ch pos : Nat) : Nat :=
  let pseudo_random := (149 * pos) % 255 + 1
  if pseudo_random ≤ ch then ch - pseudo_random else ch + 256 - pseudo_random

/-! ## Padding (fn GenericDataEncoder::add_padding in src/encodation/mod.rs) -/

/-- One randomized padding codeword: the loop body of add_padding at 1-based
codeword position pos ("randomize 253 state"). -/
def randomize_253_state (pos : Nat) : Nat :=
  let pseudo_random := (149 * pos) % 253 + 1
  let tmp := PAD + pseudo_random
  if tmp ≤ 254 then tmp else tmp - 254

/-- The padding loop of add_padding: append k randomized padding codewords,
each computed from the 1-based position it is written to. -/
def add_padding_loop (codewords : List Nat) : Nat → List Nat
  | 0 => codewords
  | k + 1 => add_padding_loop (codewords ++ [randomize_253_state (codewords.length + 1)]) k

/-- Fn GenericDataEncoder::add_padding: fill the remaining data codeword
slots of the chosen symbol, unlatching to Ascii first if necessary. -/
def add_padding (encodation : EncodationType) (codewords : List Nat)
    (size : SymbolSize) : List Nat :=
  let size_left := size.num_data_codewords - codewords.length
  if size_left = 0 then codewords
  else
    let step1 := if encodation ≠ EncodationType.Ascii then
        (codewords ++ [UNLATCH], size_left - 1) else (codewords, size_left)
    let step2 := if step1.2 > 0 then
        (step1.1 ++ [PAD], step1.2 - 1) else step1
    add_padding_loop step2.1 step2.2

/-! ## ECI escape (fn GenericDataEncoder::write_eci in src/encodation/mod.rs
and fn read_eci in src/decodation/mod.rs) -/

/-- The codewords pushed by write_eci for an ECI value c: the escape codeword
241 followed by one, two or three value codewords. Values above 999999 abort
in the source (modelled by none). -/
def write_eci (c : Nat) : Option (List Nat) :=
  if c ≤ 126 then some [ECI_ESCAPE, c + 1]
  else if c ≤ 16382 then
    let c2 := c - 127
    some [ECI_ESCAPE, c2 / 254 + 128, c2 % 254 + 1]
  else if c ≤ 999999 then
    let c3 := c - 16383
    some [ECI_ESCAPE, c3 / 64516 + 192, c3 / 254 % 254 + 1, c3 % 254 + 1]
  else none

/-- Decidable equality for Except results, used to evaluate the decoder
embeddings on concrete inputs. -/
instance {ε α : Type} [DecidableEq ε] [DecidableEq α] :
    DecidableEq (Except ε α) := fun x y =>
  match x, y with
  | Except.ok a, Except.ok b =>
    if h : a = b then isTrue (by rw [h])
    else isFalse (by intro he; injection he; contradiction)
  | Except.error a, Except.error b =>
    if h : a = b then isTrue (by rw [h])
    else isFalse (by intro he; injection he; contradiction)
  | Except.ok _, Except.error _ => isFalse (fun he => Except.noConfusion he)
  | Except.error _, Except.ok _ => isFalse (fun he => Except.noConfusion he)

/-- The errors of the data decoder (enum DataDecodingError in
src/decodation/mod.rs). -/
inductive DataDecodingError where
  | UnexpectedCharacter (ctx : String) (ch : Nat)
  | NotImplemented (ctx : String)
  | UnexpectedEnd
  | CharsetError
  | ECICode
deriving DecidableEq

/-- Fn read_eci: reads the value codewords after the 241 escape from the
stream and returns the ECI value and the remaining stream. The source checks
the second codeword range twice where the second check was clearly meant for
the third codeword; the embedding mirrors that. Byte subtractions stay in
range whenever the checks pass, so Nat subtraction is faithful. -/
def read_eci : List Nat → Except DataDecodingError (Nat × List Nat)
  | [] => .error .UnexpectedEnd
  | ch1 :: rest =>
    if 1 ≤ ch1 ∧ ch1 ≤ 127 then .ok (ch1 - 1, rest)
    else if 128 ≤ ch1 ∧ ch1 ≤ 191 then
      match rest with
      | [] => .error .UnexpectedEnd
      | ch2 :: rest2 =>
        if 1 ≤ ch2 ∧ ch2 ≤ 254 then
          .ok ((ch1 - 128) * 254 + (ch2 - 1) + 127, rest2)
        else .error (.UnexpectedCharacter "2nd after ECI" ch2)
    else if 192 ≤ ch1 ∧ ch1 ≤ 207 then
      match rest with
      | [] => .error .UnexpectedEnd
      | ch2 :: rest2 =>
        if 1 ≤ ch2 ∧ ch2 ≤ 254 then
          match rest2 with
          | [] => .error .UnexpectedEnd
          | ch3 :: rest3 =>
            if 1 ≤ ch2 ∧ ch2 ≤ 254 then
              .ok ((ch1 - 192) * 64516 + (ch2 - 1) * 254 + (ch3 - 1) + 16383,
                rest3)
            else .error (.UnexpectedCharacter "3rd after ECI" ch3)
        else .error (.UnexpectedCharacter "2nd after ECI" ch2)
    else .error (.UnexpectedCharacter "1st after ECI" ch1)

/-- Unicode translation table for ISO-8859-11 (const ISO_8859_11 in
src/decodation/eci.rs, 88 entries). -/
def ISO_8859_11 : List Char := [
  '\u00A0', '\u0E01', '\u0E02', '\u0E03', '\u0E04', '\u0E05', '\u0E06', '\u0E07',
  '\u0E08', '\u0E09', '\u0E0A', '\u0E0B', '\u0E0C', '\u0E0D', '\u0E0E', '\u0E0F',
  '\u0E10', '\u0E11', '\u0E12', '\u0E13', '\u0E14', '\u0E15', '\u0E16', '\u0E17',
  '\u0E18', '\u0E19', '\u0E1A', '\u0E1B', '\u0E1C', '\u0E1D', '\u0E1E', '\u0E1F',
  '\u0E20', '\u0E21', '\u0E22', '\u0E23', '\u0E24', '\u0E25', '\u0E26', '\u0E27',
  '\u0E28', '\u0E29', '\u0E2A', '\u0E2B', '\u0E2C', '\u0E2D', '\u0E2E', '\u0E2F',
  '\u0E30', '\u0E31', '\u0E32', '\u0E33', '\u0E34', '\u0E35', '\u0E36', '\u0E37',
  '\u0E38', '\u0E39', '\u0E3A', '\u0E3F', '\u0E40', '\u0E41', '\u0E42', '\u0E43',
  '\u0E44', '\u0E45', '\u0E46', '\u0E47', '\u0E48', '\u0E49', '\u0E4A', '\u0E4B',
  '\u0E4C', '\u0E4D', '\u0E4E', '\u0E4F', '\u0E50', '\u0E51', '\u0E52', '\u0E53',
  '\u0E54', '\u0E55', '\u0E56', '\u0E57', '\u0E58', '\u0E59', '\u0E5A', '\u0E5B']

/-- Unicode translation table for ISO-8859-9 (const ISO_8859_9 in
src/decodation/eci.rs, 96 entries). -/
def ISO_8859_9 : List Char := [
  '\u00A0', '\u00A1', '\u00A2', '\u00A3', '\u00A4', '\u00A5', '\u00A6', '\u00A7',
  '\u00A8', '\u00A9', '\u00AA', '\u00AB', '\u00AC', '\u00AD', '\u00AE', '\u00AF',
  '\u00B0', '\u00B1', '\u00B2', '\u00B3', '\u00B4', '\u00B5', '\u00B6', '\u00B7',
  '\u00B8', '\u00B9', '\u00BA', '\u00BB', '\u00BC', '\u00BD', '\u00BE', '\u00BF',
  '\u00C0', '\u00C1', '\u00C2', '\u00C3', '\u00C4', '\u00C5', '\u00C6', '\u00C7',
  '\u00C8', '\u00C9', '\u00CA', '\u00CB', '\u00CC', '\u00CD', '\u00CE', '\u00CF',
  '\u011E', '\u00D1', '\u00D2', '\u00D3', '\u00D4', '\u00D5', '\u00D6', '\u00D7',
  '\u00D8', '\u00D9', '\u00DA', '\u00DB', '\u00DC', '\u0130', '\u015E', '\u00DF',
  '\u00E0', '\u00E1', '\u00E2', '\u00E3', '\u00E4', '\u00E5', '\u00E6', '\u00E7',
  '\u00E8', '\u00E9', '\u00EA', '\u00EB', '\u00EC', '\u00ED', '\u00EE', '\u00EF',
  '\u011F', '\u00F1', '\u00F2', '\u00F3', '\u00F4', '\u00F5', '\u00F6', '\u00F7',
  '\u00F8', '\u00F9', '\u00FA', '\u00FB', '\u00FC', '\u0131', '\u015F', '\u00FF']

/-- Fn decode_iso_8859_9 in src/decodation/eci.rs. The source indexes the
96-entry table with ch - 128 for ch in 0xA0..=255; an index beyond the table
aborts the program (an out-of-bounds panic), modelled by none. -/
def decode_iso_8859_9 : List Nat → Option (Except DataDecodingError (List Char))
  | [] => some (.ok [])
  | ch :: rest =>
    if 0x20 ≤ ch ∧ ch ≤ 0x7E then
      match decode_iso_8859_9 rest with
      | none => none
      | some (.error e) => some (.error e)
      | some (.ok l) => some (.ok (Char.ofNat ch :: l))
    else if 0xA0 ≤ ch ∧ ch ≤ 255 then
      match ISO_8859_9[ch - 128]? with
      | none => none
      | some c =>
        match decode_iso_8859_9 rest with
        | none => none
        | some (.error e) => some (.error e)
        | some (.ok l) => some (.ok (c :: l))
    else some (.error .CharsetError)

/-- Fn decode_iso_8859_11 in src/decodation/eci.rs. The source indexes the
88-entry table with ch - 128 for ch in 0xA0..=251; an index beyond the table
aborts the program (an out-of-bounds panic), modelled by none. -/
def decode_iso_8859_11 : List Nat → Option (Except DataDecodingError (List Char))
  | [] => some (.ok [])
  | ch :: rest =>
    if 0x20 ≤ ch ∧ ch ≤ 0x7E then
      match decode_iso_8859_11 rest with
      | none => none
      | some (.error e) => some (.error e)
      | some (.ok l) => some (.ok (Char.ofNat ch :: l))
    else if 0xA0 ≤ ch ∧ ch ≤ 251 then
      match ISO_8859_11[ch - 128]? with
      | none => none
      | some c =>
        match decode_iso_8859_11 rest with
        | none => none
        | some (.error e) => some (.error e)
        | some (.ok l) => some (.ok (c :: l))
    else some (.error .CharsetError)

/-! ## Codeword placement traversal (struct IndexTraversal in
src/placement.rs)

The source walks the Wc x Hc content area diagonally, placing one codeword
(eight modules) per utah or corner shape, keeping a visited array. Indices are
i16 in the source and are modelled as Int; the visited array becomes a bit
mask. Reading or writing outside the array would abort in Rust and sets the
oob flag here; a repeated assignment of a module sets the dup flag. -/

structure TravState where
  mask : Nat
  dup : Bool
  oob : Bool
  count : Nat
deriving DecidableEq

/-- Mark one module index as visited (the visited[v] = true write inside the
visit macro of IndexTraversal::run, together with the bound check the Rust
array indexing performs; a negative i16 index cast with as usize becomes a
huge value, so the access panics, modelled by the oob flag). -/
def markOne (area : Nat) (st : TravState) (idx : Int) : TravState :=
  match idx with
  | Int.ofNat n =>
    if n < area then
      if st.mask.testBit n then { st with dup := true }
      else { st with mask := st.mask ||| (1 <<< n) }
    else { st with oob := true }
  | Int.negSucc _ => { st with oob := true }

/-- Process one placement: mark its eight module indices and count one
codeword (the visit macro of IndexTraversal::run). -/
def visitPlace (area : Nat) (st : TravState) (idxs : List Int) : TravState :=
  let st2 := idxs.foldl (markOne area) st
  { st2 with count := st2.count + 1 }

/-- The last two wrapping steps of IndexTraversal::idx, applied after the
i < 0 wrap: the j < 0 wrap followed by the i >= h reduction and the final
index computation. -/
def idxWgo (nrow ncol : Int) (i j : Int) : Int :=
  if j < 0 then
    let i2 := i + 4 - ((ncol + 4) % 8)
    let j2 := j + ncol
    (if i2 ≥ nrow then i2 - nrow else i2) * ncol + j2
  else
    (if i ≥ nrow then i - nrow else i) * ncol + j

/-- Fn IndexTraversal::idx: index of module (i, j) with the wrapping rule of
the standard (the source mutates i and j through three sequential ifs). -/
def idxW (nrow ncol : Int) (i j : Int) : Int :=
  if i < 0 then idxWgo nrow ncol (i + nrow) (j + 4 - ((nrow + 4) % 8))
  else idxWgo nrow ncol i j

/-- Fn IndexTraversal::utah: the eight module indices of the standard
L-shaped placement anchored at (i, j), most significant bit first. -/
def utahIdx (nrow ncol : Int) (i j : Int) : List Int :=
  let i1 := i - 1
  let i2 := i - 2
  let j1 := j - 1
  let j2 := j - 2
  [idxW nrow ncol i2 j2, idxW nrow ncol i2 j1,
   idxW nrow ncol i1 j2, idxW nrow ncol i1 j1,
   idxW nrow ncol i1 j, idxW nrow ncol i j2,
   idxW nrow ncol i j1, idxW nrow ncol i j]

/-- Fn IndexTraversal::corner1. -/
def corner1Idx (h w : Int) : List Int :=
  [idxW h w (h - 1) 0, idxW h w (h - 1) 1, idxW h w (h - 1) 2,
   idxW h w 0 (w - 2), idxW h w 0 (w - 1), idxW h w 1 (w - 1),
   idxW h w 2 (w - 1), idxW h w 3 (w - 1)]

/-- Fn IndexTraversal::corner2. -/
def corner2Idx (h w : Int) : List Int :=
  [idxW h w (h - 3) 0, idxW h w (h - 2) 0, idxW h w (h - 1) 0,
   idxW h w 0 (w - 4), idxW h w 0 (w - 3), idxW h w 0 (w - 2),
   idxW h w 0 (w - 1), idxW h w 1 (w - 1)]

/-- Fn IndexTraversal::corner3. -/
def corner3Idx (h w : Int) : List Int :=
  [idxW h w (h - 3) 0, idxW h w (h - 2) 0, idxW h w (h - 1) 0,
   idxW h w 0 (w - 2), idxW h w 0 (w - 1), idxW h w 1 (w - 1),
   idxW h w 2 (w - 1), idxW h w 3 (w - 1)]

/-- Fn IndexTraversal::corner4. -/
def corner4Idx (h w : Int) : List Int :=
  [idxW h w (h - 1) 0, idxW h w (h - 1) (w - 1), idxW h w 0 (w - 3),
   idxW h w 0 (w - 2), idxW h w 0 (w - 1), idxW h w 1 (w - 3),
   idxW h w 1 (w - 2), idxW h w 1 (w - 1)]

/-- Reduction device: forceNat n k = k n, but the match rebinds n as a
numeral, so that the fueled loop below passes fully evaluated values to
each iteration instead of accumulating chains of pending operations. -/
def forceNat {α : Type} (n : Nat) (k : Nat → α) : α :=
  match n with
  | 0 => k 0
  | m + 1 => k (m + 1)

/-- Reduction device: forceBool b k = k b with b rebound as a constructor. -/
def forceBool {α : Type} (b : Bool) (k : Bool → α) : α :=
  match b with
  | false => k false
  | true => k true

/-- Reduction device: forceInt i k = k i with both constructor and numeral
rebound in evaluated form. -/
def forceInt {α : Type} (i : Int) (k : Int → α) : α :=
  match i with
  | Int.ofNat n => forceNat n (fun m => k (Int.ofNat m))
  | Int.negSucc n => forceNat n (fun m => k (Int.negSucc m))

/-- Reduction device: forceState st k = k st with every field of the state
rebound in evaluated form. -/
def forceState {α : Type} (st : TravState) (k : TravState → α) : α :=
  forceNat st.mask (fun m => forceBool st.dup (fun d => forceBool st.oob
    (fun o => forceNat st.count (fun c => k ⟨m, d, o, c⟩))))

/-- The upward diagonal sweep of IndexTraversal::run. Returns the position
after the sweep; fuel bounds the iteration count (the sweep advances j by 2
each step, so any fuel above ncol suffices and fuel exhaustion is modelled
as none). -/
def sweepUp (nrow ncol : Int) (area : Nat) :
    Nat → Int × Int → TravState → Option ((Int × Int) × TravState)
  | 0, _, _ => none
  | f + 1, (i, j), st =>
    let st1 :=
      if i < nrow ∧ 0 ≤ j then
        match i * ncol + j with
        | Int.ofNat a =>
          if a < area then
            if st.mask.testBit a then st
            else visitPlace area st (utahIdx nrow ncol i j)
          else { st with oob := true }
        | Int.negSucc _ => { st with oob := true }
      else st
    forceState st1 (fun st2 =>
      forceInt (i - 2) (fun i2 =>
        forceInt (j + 2) (fun j2 =>
          if i2 ≥ 0 ∧ j2 < ncol then sweepUp nrow ncol area f (i2, j2) st2
          else some ((i2, j2), st2))))

/-- The downward diagonal sweep of IndexTraversal::run. -/
def sweepDown (nrow ncol : Int) (area : Nat) :
    Nat → Int × Int → TravState → Option ((Int × Int) × TravState)
  | 0, _, _ => none
  | f + 1, (i, j), st =>
    let st1 :=
      if 0 ≤ i ∧ j < ncol then
        match i * ncol + j with
        | Int.ofNat a =>
          if a < area then
            if st.mask.testBit a then st
            else visitPlace area st (utahIdx nrow ncol i j)
          else { st with oob := true }
        | Int.negSucc _ => { st with oob := true }
      else st
    forceState st1 (fun st2 =>
      forceInt (i + 2) (fun i2 =>
        forceInt (j - 2) (fun j2 =>
          if i2 < nrow ∧ 0 ≤ j2 then sweepDown nrow ncol area f (i2, j2) st2
          else some ((i2, j2), st2))))

/-- The outer loop of IndexTraversal::run: corner checks, upward sweep,
downward sweep, and the step to the next pair of diagonals. -/
def travLoop (nrow ncol : Int) (area : Nat) :
    Nat → Int × Int → TravState → Option TravState
  | 0, _, _ => none
  | f + 1, (i, j), st =>
    let st := if i = nrow ∧ j = 0 then
      visitPlace area st (corner1Idx nrow ncol) else st
    let st := if i = nrow - 2 ∧ j = 0 ∧ ncol % 4 ≠ 0 then
      visitPlace area st (corner2Idx nrow ncol) else st
    let st := if i = nrow - 2 ∧ j = 0 ∧ ncol % 8 = 4 then
      visitPlace area st (corner3Idx nrow ncol) else st
    let st := if i = nrow + 4 ∧ j = 2 ∧ ncol % 8 = 0 then
      visitPlace area st (corner4Idx nrow ncol) else st
    match sweepUp nrow ncol area (area + 16) (i, j) st with
    | none => none
    | some ((i1, j1), st1) =>
      match sweepDown nrow ncol area (area + 16) (i1 + 1, j1 + 3) st1 with
      | none => none
      | some ((i2, j2), st2) =>
        forceInt (i2 + 3) (fun i3 =>
          forceInt (j2 + 1) (fun j3 =>
            if i3 < nrow ∨ j3 < ncol then travLoop nrow ncol area f (i3, j3) st2
            else some st2))

/-- Run the traversal of IndexTraversal::run for a symbol size, starting at
(4, 0) on an empty visited set. -/
def traversalRun (s : SymbolSize) : Option TravState :=
  let bs := s.block_setup
  let h := bs.content_height
  let w := bs.content_width
  travLoop (h : Int) (w : Int) (h * w) (h * w + 16) (4, 0) ⟨0, false, false, 0⟩

/-- The generator polynomial coefficient table of the Reed-Solomon code
(const GENERATOR_POLYNOMIALS in src/errorcode/mod.rs), highest coefficient
first, one entry per supported degree. -/
def GENERATOR_POLYNOMIALS : List (List Nat) := [
  [1, 62, 111, 15, 48, 228],
  [1, 254, 92, 240, 134, 144, 68, 23],
  [1, 61, 110, 255, 116, 248, 223, 166, 185, 24, 28],
  [1, 120, 97, 60, 245, 39, 168, 194, 12, 205, 138, 175],
  [1, 242, 100, 178, 97, 213, 142, 42, 61, 91, 158, 153, 41],
  [1, 185, 83, 186, 18, 45, 138, 119, 157, 9, 95, 252, 192, 97, 156],
  [1, 93, 223, 139, 159, 35, 145, 234, 176, 153, 88, 201, 148, 33, 88, 116],
  [1, 188, 90, 48, 225, 254, 94, 129, 109, 213, 241, 61, 66, 75, 188, 39, 100, 195, 83],
  [1, 172, 186, 174, 27, 82, 108, 79, 253, 145, 153, 160, 188, 2, 168, 71, 233, 9, 244, 195, 15],
  [1, 236, 188, 3, 209, 217, 125, 10, 38, 152, 1, 132, 27, 94, 71, 123, 5, 241, 95, 201, 76,
   249, 75],
  [1, 193, 50, 96, 184, 181, 12, 124, 254, 172, 5, 21, 155, 223, 251, 197, 155, 21, 176, 39,
   109, 205, 88, 190, 52],
  [1, 232, 180, 161, 246, 233, 134, 72, 108, 210, 246, 244, 65, 55, 123, 29, 229, 47, 205,
   143, 74, 97, 147, 182, 96, 130, 183, 215],
  [1, 255, 93, 168, 233, 151, 120, 136, 141, 213, 110, 138, 17, 121, 249, 34, 75, 53, 170,
   151, 37, 174, 103, 96, 71, 97, 43, 231, 211],
  [1, 104, 129, 163, 234, 55, 95, 144, 174, 249, 2, 145, 104, 19, 103, 202, 211, 38, 2, 120,
   209, 58, 61, 21, 236, 95, 107, 199, 228, 130, 159, 184, 227],
  [1, 139, 4, 179, 189, 67, 14, 89, 138, 237, 152, 62, 154, 62, 107, 114, 189, 6, 143, 95,
   90, 116, 237, 103, 42, 95, 203, 234, 71, 172, 210, 218, 231, 197, 190],
  [1, 112, 81, 98, 225, 25, 59, 184, 175, 44, 115, 119, 95, 137, 101, 33, 68, 4, 2, 18, 229,
   182, 80, 251, 220, 179, 84, 120, 102, 181, 162, 250, 130, 218, 242, 127, 245],
  [1, 235, 181, 165, 241, 166, 169, 220, 128, 80, 134, 170, 223, 122, 215, 83, 183, 55, 211,
   139, 103, 172, 41, 203, 123, 143, 233, 74, 237, 168, 102, 90, 166, 222, 239, 141, 101, 30,
   109],
  [1, 149, 220, 249, 68, 38, 81, 71, 79, 244, 224, 15, 133, 132, 208, 211, 90, 165, 84, 144,
   137, 250, 156, 120, 101, 136, 172, 193, 216, 99, 53, 48, 194, 222, 6, 142, 2, 43, 106,
   123, 21, 35],
  [1, 5, 9, 5, 226, 177, 150, 50, 69, 202, 248, 101, 54, 57, 253, 1, 21, 121, 57, 111, 214,
   105, 167, 9, 100, 95, 175, 8, 242, 133, 245, 2, 122, 105, 247, 153, 22, 38, 19, 31, 137,
   193, 77],
  [1, 78, 62, 74, 235, 114, 62, 141, 178, 40, 98, 144, 118, 173, 138, 72, 43, 21, 77, 47,
   127, 130, 206, 33, 221, 83, 171, 135, 29, 11, 61, 47, 51, 111, 129, 35, 186, 232, 160,
   178, 114, 135, 113, 200, 197, 29, 195],
  [1, 19, 225, 253, 92, 213, 69, 175, 160, 147, 187, 87, 176, 44, 82, 240, 186, 138, 66, 100,
   120, 88, 131, 205, 170, 90, 37, 23, 118, 147, 16, 106, 191, 87, 237, 188, 205, 231, 238,
   133, 238, 22, 117, 32, 96, 223, 172, 132, 245],
  [1, 74, 54, 162, 91, 167, 218, 212, 183, 156, 74, 16, 153, 79, 231, 112, 28, 25, 185, 8,
   241, 243, 76, 80, 14, 205, 156, 65, 114, 251, 241, 14, 142, 9, 16, 112, 230, 36, 223, 222,
   74, 245, 123, 150, 102, 167, 43, 165, 254, 166, 1],
  [1, 46, 143, 53, 233, 107, 203, 43, 155, 28, 247, 67, 127, 245, 137, 13, 164, 207, 62, 117,
   201, 150, 22, 238, 144, 232, 29, 203, 117, 234, 218, 146, 228, 54, 132, 200, 38, 223, 36,
   159, 150, 235, 215, 192, 230, 170, 175, 29, 100, 208, 220, 17, 12, 238, 223, 9, 175],
  [1, 204, 11, 47, 86, 124, 224, 166, 94, 7, 232, 107, 4, 170, 176, 31, 163, 17, 188, 130,
   40, 10, 87, 63, 51, 218, 27, 6, 147, 44, 161, 71, 114, 64, 175, 221, 185, 106, 250, 190,
   197, 63, 245, 230, 134, 112, 185, 37, 196, 108, 143, 189, 201, 188, 202, 118, 39, 210,
   144, 50, 169, 93, 242],
  [1, 186, 82, 103, 96, 63, 132, 153, 108, 54, 64, 189, 211, 232, 49, 25, 172, 52, 59, 241,
   181, 239, 223, 136, 231, 210, 96, 232, 220, 25, 179, 167, 202, 185, 153, 139, 66, 236,
   227, 160, 15, 213, 93, 122, 68, 177, 158, 197, 234, 180, 248, 136, 213, 127, 73, 36, 154,
   244, 147, 33, 89, 56, 159, 149, 251, 89, 173, 228, 220]]
/-- Fn generator in src/errorcode/mod.rs: the table entry whose degree is
len. A missing entry aborts in the source (expect); the table covers every
degree the symbol catalog uses, see generator_covers_catalog below. -/
def generator (len : Nat) : List Nat :=
  ((GENERATOR_POLYNOMIALS.find? (fun p => p.length - 1 = len)).getD [])

/-- A byte as a field element (the GF(u8) conversions of galois.rs; every
byte the embedding feeds in is below 256, see byteToGF_val). -/
def byteToGF (n : Nat) : GF := ⟨n % 256, Nat.mod_lt _ (by norm_num)⟩

theorem byteToGF_val {n : Nat} (h : n < 256) : (byteToGF n).val = n :=
  Nat.mod_eq_of_lt h

/-- The generator polynomial as field elements. -/
def generatorGF (len : Nat) : List GF := (generator len).map byteToGF

/-! ## Reed-Solomon encoding (fn encode_error and fn ecc_block in
src/errorcode/mod.rs) -/

/-- One iteration of the shift-and-xor loop of fn ecc_block: the register e
holds the first g.length - 1 entries of the ecc array of the source (the last
array entry is a sentinel that always stays zero, modelled by the appended
zero). -/
def ecc_step (g : List GF) (e : List GF) (a : GF) : List GF :=
  let k := e.headD 0 + a
  List.zipWith (fun x gj => x + k * gj) (e.drop 1 ++ [0]) (g.drop 1)

/-- Fn ecc_block: stream the data through the register, starting from the
all-zero register. -/
def ecc_block (data : List GF) (g : List GF) : List GF :=
  data.foldl (ecc_step g) (List.replicate (g.length - 1) 0)

/-- Iterator adapter step_by(stride) starting at the head of l, as used by
encode_error and the decoder: the elements at indices 0, stride, 2*stride,
and so on. -/
def stepBy (l : List GF) (stride : Nat) : List GF :=
  (List.range ((l.length + stride - 1) / stride)).map
    (fun j => (l.get? (j * stride)).getD 0)

/-- Fn encode_error: compute the ecc codewords of each interleaved block and
lay the blocks out interleaved (block b occupies positions b, b + stride,
b + 2*stride, ...). -/
def encode_error (data : List GF) (size : SymbolSize) : List GF :=
  let setup := size.block_setup
  let stride := setup.num_ecc_blocks
  let gen := generatorGF setup.num_ecc_per_block
  (List.range (setup.num_ecc_per_block * stride)).map
    (fun i => ((ecc_block (stepBy (data.drop (i % stride)) stride) gen).get?
      (i / stride)).getD 0)

/-! ## Polynomial evaluation over GF (the Horner scheme implicit in the
syndrome computation of fn primitive_element_evaluation, with the first list
entry as the highest coefficient) -/

def polyEval (l : List GF) (r : GF) : GF := l.foldl (fun acc c => acc * r + c) 0

theorem polyEval_nil (r : GF) : polyEval [] r = 0 := rfl

theorem polyEval_foldl_shift (l : List GF) (r s : GF) :
    l.foldl (fun acc c => acc * r + c) s = s * r ^ l.length + polyEval l r := by
  induction l generalizing s with
  | nil => simp [polyEval]
  | cons c t ih =>
      rw [List.foldl_cons, ih (s * r + c)]
      have h0 : polyEval (c :: t) r = (0 * r + c) * r ^ t.length + polyEval t r := by
        rw [polyEval, List.foldl_cons, ih (0 * r + c)]
      rw [h0]
      simp only [List.length_cons]
      ring

theorem polyEval_cons (c : GF) (t : List GF) (r : GF) :
    polyEval (c :: t) r = c * r ^ t.length + polyEval t r := by
  rw [polyEval, List.foldl_cons, polyEval_foldl_shift]
  ring

theorem polyEval_append (l1 l2 : List GF) (r : GF) :
    polyEval (l1 ++ l2) r = polyEval l1 r * r ^ l2.length + polyEval l2 r := by
  rw [polyEval, List.foldl_append, polyEval_foldl_shift]
  rfl

theorem polyEval_replicate_zero (k : Nat) (r : GF) :
    polyEval (List.replicate k 0) r = 0 := by
  induction k with
  | zero => rfl
  | succ n ih => rw [List.replicate_succ, polyEval_cons, ih]; ring

theorem polyEval_zipWith_add (l1 l2 : List GF) (r : GF)
    (h : l1.length = l2.length) :
    polyEval (List.zipWith (· + ·) l1 l2) r = polyEval l1 r + polyEval l2 r := by
  induction l1 generalizing l2 with
  | nil =>
      cases l2 with
      | nil => simp [polyEval]
      | cons b t => simp at h
  | cons a t1 ih =>
      cases l2 with
      | nil => simp at h
      | cons b t2 =>
          simp only [List.length_cons, Nat.succ_inj] at h
          rw [List.zipWith_cons_cons, polyEval_cons, polyEval_cons,
            polyEval_cons, ih t2 h, List.length_zipWith, h, Nat.min_self]
          ring

theorem polyEval_map_mul (k : GF) (l : List GF) (r : GF) :
    polyEval (l.map (fun c => k * c)) r = k * polyEval l r := by
  induction l with
  | nil => simp [polyEval]
  | cons a t ih =>
      rw [List.map_cons, polyEval_cons, polyEval_cons, ih, List.length_map]
      ring

theorem two_eq_zero : (2 : GF) = 0 := by decide

theorem ecc_step_length (g e : List GF) (a : GF) (h : e.length = g.length - 1) :
    (ecc_step g e a).length = g.length - 1 := by
  simp only [ecc_step, List.length_zipWith, List.length_append,
    List.length_drop, List.length_singleton]
  omega

theorem ecc_step_eval (gt : List GF) (r : GF) (hroot : polyEval (1 :: gt) r = 0)
    (hgt : 0 < gt.length) (e : List GF) (he : e.length = gt.length) (a : GF) :
    polyEval (ecc_step (1 :: gt) e a) r = polyEval e r * r + a * r ^ gt.length := by
  cases e with
  | nil => simp at he; omega
  | cons e0 et =>
    have he' : et.length + 1 = gt.length := by simpa using he
    have hg : r ^ gt.length = polyEval gt r := by
      apply GF.eq_of_add_eq_zero
      have h1 := hroot
      rw [polyEval_cons, one_mul] at h1
      exact h1
    have hzip : ecc_step (1 :: gt) (e0 :: et) a =
        List.zipWith (· + ·) (et ++ [0]) (gt.map (fun c => (e0 + a) * c)) := by
      rw [ecc_step]
      simp only [List.headD_cons, List.drop_one, List.tail_cons]
      rw [List.zipWith_map_right]
    rw [hzip, polyEval_zipWith_add _ _ _ (by simp; omega), polyEval_append,
      polyEval_map_mul, polyEval_cons, ← hg, ← he', polyEval_cons e0 et,
      polyEval_nil]
    simp only [List.length_singleton, List.length_nil, pow_one, pow_zero]
    ring

theorem ecc_loop_length (g : List GF) (data : List GF) :
    ∀ e : List GF, e.length = g.length - 1 →
    (data.foldl (ecc_step g) e).length = g.length - 1 := by
  induction data with
  | nil => intro e he; simpa using he
  | cons a d ih =>
      intro e he
      rw [List.foldl_cons]
      exact ih _ (ecc_step_length g e a he)

theorem ecc_loop_eval (gt : List GF) (r : GF) (hroot : polyEval (1 :: gt) r = 0)
    (hgt : 0 < gt.length) (data : List GF) :
    ∀ e : List GF, e.length = gt.length →
    polyEval (data.foldl (ecc_step (1 :: gt)) e) r
      = polyEval e r * r ^ data.length + polyEval data r * r ^ gt.length := by
  induction data with
  | nil =>
      intro e he
      simp [polyEval]
  | cons a d ih =>
      intro e he
      have hlen : (ecc_step (1 :: gt) e a).length = gt.length := by
        have := ecc_step_length (1 :: gt) e a (by simpa using he)
        simpa using this
      rw [List.foldl_cons, ih _ hlen, ecc_step_eval gt r hroot hgt e he a,
        polyEval_cons]
      simp only [List.length_cons]
      ring

/-- Every interleaved block written by ecc_block has vanishing value at each
root r of the generator polynomial: the block data followed by its ecc
codewords evaluates to zero. -/
theorem ecc_block_syndrome (gt : List GF) (r : GF)
    (hroot : polyEval (1 :: gt) r = 0) (hgt : 0 < gt.length)
    (data : List GF) :
    polyEval (data ++ ecc_block data (1 :: gt)) r = 0 := by
  have hrepl : ecc_block data (1 :: gt)
      = data.foldl (ecc_step (1 :: gt)) (List.replicate gt.length 0) := by
    rfl
  have hlen : (ecc_block data (1 :: gt)).length = gt.length := by
    rw [hrepl]
    have := ecc_loop_length (1 :: gt) data (List.replicate gt.length 0) (by simp)
    simpa using this
  rw [polyEval_append, hlen, hrepl,
    ecc_loop_eval gt r hroot hgt data (List.replicate gt.length 0) (by simp),
    polyEval_replicate_zero]
  linear_combination (polyEval data r * r ^ gt.length) * two_eq_zero

theorem ecc_block_length (bl g : List GF) :
    (ecc_block bl g).length = g.length - 1 := by
  rw [ecc_block]
  exact ecc_loop_length g bl (List.replicate (g.length - 1) 0) (by simp)

theorem stepBy_length (l : List GF) (s : Nat) :
    (stepBy l s).length = (l.length + s - 1) / s := by
  simp [stepBy]

theorem stepBy_get? (l : List GF) (s n : Nat)
    (hn : n < (l.length + s - 1) / s) :
    (stepBy l s).get? n = some ((l.get? (n * s)).getD 0) := by
  rw [stepBy, List.get?_map, List.get?_range hn]
  rfl

theorem encode_error_def (data : List GF) (size : SymbolSize) :
    encode_error data size =
      (List.range (size.block_setup.num_ecc_per_block *
          size.block_setup.num_ecc_blocks)).map
        (fun i => ((ecc_block
            (stepBy (data.drop (i % size.block_setup.num_ecc_blocks))
              size.block_setup.num_ecc_blocks)
            (generatorGF size.block_setup.num_ecc_per_block)).get?
          (i / size.block_setup.num_ecc_blocks)).getD 0) := rfl

/-- Reading every stride-th element of the interleaved ecc vector starting at
position b recovers exactly the ecc block of interleaved data block b. -/
theorem encode_error_block (data : List GF) (size : SymbolSize) (b : Nat)
    (hb : b < size.block_setup.num_ecc_blocks)
    (hne1 : 1 ≤ size.block_setup.num_ecc_per_block)
    (hglen : (generatorGF size.block_setup.num_ecc_per_block).length
      = size.block_setup.num_ecc_per_block + 1) :
    stepBy ((encode_error data size).drop b) size.block_setup.num_ecc_blocks
      = ecc_block (stepBy (data.drop b) size.block_setup.num_ecc_blocks)
          (generatorGF size.block_setup.num_ecc_per_block) := by
  set st := size.block_setup.num_ecc_blocks with hst
  set ne := size.block_setup.num_ecc_per_block with hne
  have hst0 : 0 < st := Nat.pos_of_ne_zero (by omega)
  have hfull : (encode_error data size).length = ne * st := by
    rw [encode_error_def]
    simp
  have hblock : (ecc_block (stepBy (data.drop b) st)
      (generatorGF ne)).length = ne := by
    rw [ecc_block_length, hglen]
    omega
  have hcount : (ne * st - b + st - 1) / st = ne := by
    have h1 : ne * st - b + st - 1 = (st - 1 - b) + st * ne := by
      have hb' : b ≤ st - 1 := by omega
      have : st ≤ ne * st := Nat.le_mul_of_pos_left st hne1
      rw [Nat.mul_comm st ne]
      omega
    rw [h1, Nat.add_mul_div_left _ _ hst0, Nat.div_eq_of_lt (by omega)]
    omega
  apply List.ext_get?
  intro n
  by_cases hn : n < ne
  · have hidx : b + n * st < ne * st := by
      have h2 : b + n * st < (n + 1) * st := by
        rw [Nat.succ_mul]
        omega
      exact Nat.lt_of_lt_of_le h2 (Nat.mul_le_mul_right st hn)
    have hL : ((encode_error data size).drop b).length = ne * st - b := by
      rw [List.length_drop, hfull]
    rw [stepBy_get? _ _ _ (by rw [hL, hcount]; exact hn),
      List.get?_drop, encode_error_def, List.get?_map,
      List.get?_range hidx]
    simp only [Option.map_some']
    have hmod : (b + n * st) % st = b := by
      rw [Nat.add_mul_mod_self_right]
      exact Nat.mod_eq_of_lt hb
    have hdiv : (b + n * st) / st = n := by
      rw [Nat.add_mul_div_right _ _ hst0, Nat.div_eq_of_lt hb]
      omega
    rw [hmod, hdiv]
    have hsome := List.get?_eq_get (l := ecc_block (stepBy (data.drop b) st)
      (generatorGF ne)) (n := n) (by rw [hblock]; exact hn)
    rw [hsome]
    rfl
  · have hL : ((encode_error data size).drop b).length = ne * st - b := by
      rw [List.length_drop, hfull]
    rw [List.get?_eq_none.mpr, List.get?_eq_none.mpr]
    · rw [hblock]
      omega
    · rw [stepBy_length, hL, hcount]
      omega

theorem mem_SYMBOL_SIZES (s : SymbolSize) : s ∈ SYMBOL_SIZES := by
  cases s <;> decide

theorem catalog_ne_in_table : ∀ s ∈ SYMBOL_SIZES,
    (s.block_setup).num_ecc_per_block
      ∈ GENERATOR_POLYNOMIALS.map (fun p => p.length - 1) := by decide

set_option maxHeartbeats 4000000 in
/-- Checked table facts: every generator polynomial of the table has leading
coefficient one, the advertised length, and vanishes at x, x^2, ..., x^Ne
(the first Ne powers of the primitive element). -/
theorem generator_roots_all :
    ∀ ne ∈ GENERATOR_POLYNOMIALS.map (fun p => p.length - 1),
    1 ≤ ne ∧ (generator ne).length = ne + 1 ∧ (generator ne).headD 0 = 1 ∧
    ∀ i < ne, polyEval (generatorGF ne) (GF.x ^ (i + 1)) = 0 := by decide

/-- The syndrome property of the Reed-Solomon encoder: every interleaved
block of data followed by its interleaved ecc codewords evaluates to zero at
the powers x, x^2, ..., x^Ne of the primitive element. -/
theorem encode_error_syndromes (size : SymbolSize) (data : List GF)
    (b : Nat) (hb : b < (size.block_setup).num_ecc_blocks)
    (i : Nat) (hi1 : 1 ≤ i) (hi2 : i ≤ (size.block_setup).num_ecc_per_block) :
    polyEval (stepBy (data.drop b) (size.block_setup).num_ecc_blocks
      ++ stepBy ((encode_error data size).drop b)
          (size.block_setup).num_ecc_blocks)
      (GF.x ^ i) = 0 := by
  obtain ⟨hne1, hglen, hhead, hroots⟩ :=
    generator_roots_all _ (catalog_ne_in_table size (mem_SYMBOL_SIZES size))
  set ne := (size.block_setup).num_ecc_per_block with hne
  have hglenGF : (generatorGF ne).length = ne + 1 := by
    rw [generatorGF, List.length_map]
    exact hglen
  have hgen : generatorGF ne = 1 :: ((generator ne).drop 1).map byteToGF := by
    cases hg : generator ne with
    | nil => rw [hg] at hglen; simp at hglen
    | cons g0 gt =>
        have h0 : g0 = 1 := by rw [hg] at hhead; simpa using hhead
        have hb1 : byteToGF 1 = 1 := GF.eq_of_val rfl
        rw [generatorGF, hg, h0, List.map_cons, List.drop_one, List.tail_cons,
          hb1]
  have hgtlen : 0 < (((generator ne).drop 1).map byteToGF).length := by
    rw [List.length_map, List.length_drop, hglen]
    omega
  have hroot : polyEval (1 :: ((generator ne).drop 1).map byteToGF)
      (GF.x ^ i) = 0 := by
    rw [← hgen]
    have := hroots (i - 1) (by omega)
    rwa [show i - 1 + 1 = i by omega] at this
  rw [encode_error_block data size b hb hne1 hglenGF, hgen]
  exact ecc_block_syndrome _ _ hroot hgtlen _

/-! ## Syndrome-based Reed-Solomon decoder
(src/errorcode/decoding/mod.rs and syndrome_based.rs)

The decoder works in place on mutable slices in Rust; the embedding passes
lists and returns updated lists. Panics (slice indexing out of bounds,
division by zero, failed assertions) are modelled by Option.none. -/

/-- The error type of the decoder (the enum with the three variants
TooManyErrors, ErrorsOutsideRange and Malfunction in
src/errorcode/decoding/mod.rs, exported as ErrorDecodingError). -/
inductive ErrorDecodingError where
  | TooManyErrors
  | ErrorsOutsideRange
  | Malfunction
deriving DecidableEq

/-- Division in GF(256) (impl Div for GF in galois.rs): subtract logs mod
255; division by zero asserts in the source, modelled by none. -/
def GF.div (a b : GF) : Option GF :=
  if b.val = 0 then none
  else if a.val = 0 then some 0
  else some ⟨alogT (((logT a.val + 255) - logT b.val) % 255), alogT_lt _⟩

/-- Element j of the primitive-powers iterator of galois.rs
(GF::primitive_powers cycles through the ANTI_LOG table). -/
def primPow (j : Nat) : GF := GF.primitivePower (j % 255)

/-- Dot product of two coefficient slices (fn dot inside the decoder; the
iterator zip truncates to the shorter list, as in the source). -/
def dotGF (a b : List GF) : GF := (List.zipWith (· * ·) a b).foldl (· + ·) 0

/-- The inclusive slice l[a..=b] of Rust; out-of-range bounds abort. -/
def sliceI (l : List GF) (a b : Nat) : Option (List GF) :=
  if a ≤ b + 1 ∧ b < l.length then some ((l.drop a).take (b + 1 - a)) else none

/-- Indexed write l[i] = v of Rust; out-of-range aborts. -/
def setP (l : List GF) (i : Nat) (v : GF) : Option (List GF) :=
  if i < l.length then some (l.set i v) else none

/-- Fold a Rust for-loop over the index range a..b (exclusive) with an
Option-valued body. -/
def foldRangeM {α : Type} (a b : Nat) (f : α → Nat → Option α) (init : α) :
    Option α :=
  (List.range' a (b - a)).foldlM f init

/-- Fn primitive_element_evaluation in src/errorcode/decoding/mod.rs:
evaluate the received word at x, x^2, ..., x^n; returns the syndromes and
whether any of them is nonzero. -/
def primitive_element_evaluation (c : List GF) (n : Nat) : List GF × Bool :=
  let res := (List.range n).foldl
    (fun (st : List GF × List GF) _ =>
      let g2 := st.1.mapIdx (fun j g => g * primPow j)
      (g2, st.2 ++ [g2.foldl (· + ·) 0]))
    (c.reverse, [])
  (res.2, res.2.any (fun o => o ≠ 0))

/-- Fn chien_search in src/errorcode/decoding/mod.rs: collect the zeros of
the polynomial c (highest coefficient first). The two-coefficient case
divides by the leading coefficient, which aborts when it is zero. -/
def chien_search (c : List GF) : Option (List GF) :=
  if c.isEmpty then some []
  else
    let out0 : List GF := if c.getLast? = some 0 then [0] else []
    if c.length = 2 then
      match c.get? 1, c.get? 0 with
      | some c1, some c0 =>
        if c1 ≠ 0 then
          match GF.div (-c1) c0 with
          | none => none
          | some q => some (out0 ++ [q])
        else some out0
      | _, _ => none
    else
      let res := (List.range 255).foldl
        (fun (st : List GF × List GF) i =>
          let val := st.1.foldl (· + ·) 0
          let out := if val = 0 then st.2 ++ [GF.primitivePower i] else st.2
          (st.1.mapIdx (fun j g => g * primPow j), out))
        (c.reverse, out0)
      some res.2

/-- The while-loop body of fn find_inv_error_locations_levinson_durbin,
iterating until v reaches t or the singular-case search finds no further
nonzero discrepancy (the break). Fuel decreases every iteration; v grows by
at least one per iteration, so fuel t + 1 always suffices. -/
def ldLoop (syn : List GF) (t : Nat) :
    Nat → Nat → List GF → List GF → Option (List GF)
  | 0, _, _, _ => none
  | f + 1, v, y, w =>
    if v < t then
      let tmp := w ++ [-(1 : GF)]
      match sliceI syn v (2 * v) with
      | none => none
      | some s1 =>
        let eps := dotGF s1 tmp
        if eps ≠ 0 then
          -- the regular case
          let w1 : List GF := 0 :: w
          let w2 := (List.zipWith (fun wi yi => wi - eps * yi) (w1.take v) y)
            ++ w1.drop v
          match sliceI syn (v + 1) (2 * v + 1), sliceI syn v (2 * v - 1) with
          | some s2, some s3 =>
            (match GF.div (dotGF s2 tmp) eps, GF.div 1 eps with
            | some beta, some epsInv =>
              let gamma := dotGF s3 y
              let w3 := List.zipWith (fun wi ti => wi - (beta - gamma) * ti) w2 tmp
              let y1 := (List.zipWith (fun _yi ti => ti * epsInv) y tmp) ++ [-epsInv]
              ldLoop syn t f (v + 1) y1 w3
            | _, _ => none)
          | _, _ => none
        else
          -- the singular case: find the smallest m with nonzero discrepancy
          let findM := (List.range' 1 (t - v - 1)).foldl
            (fun (acc : Option (Option (Nat × GF))) i =>
              match acc with
              | none => none
              | some (some r) => some (some r)
              | some none =>
                match sliceI syn (v + i) (2 * v + i) with
                | none => none
                | some s =>
                  let d := dotGF s tmp
                  if d ≠ 0 then some (some (i, d)) else some none)
            (some none)
          match findM with
          | none => none
          | some none => some w
          | some (some (m, sigma_m)) =>
            let n := m + v
            match (List.range' (m + 1) m).mapM (fun k =>
                (sliceI syn (v + k) (2 * v + k)).map (fun s => dotGF s tmp)) with
            | none => none
            | some sigmaTail =>
              let sigma := sigma_m :: sigmaTail
              match foldRangeM 0 (m + 1) (fun tw _k => do
                  let s2vk ← syn.get? (2 * v + _k)
                  let s3 ← sliceI syn v (2 * v - 1)
                  let rho := s2vk - dotGF s3 tw
                  let eta ← tw.get? (v - 1)
                  let tw1 : List GF := 0 :: tw.dropLast
                  some (List.zipWith
                    (fun wki (p : GF × GF) => wki + rho * p.1 + eta * p.2)
                    tw1 (y.zip w))) w with
              | none => none
              | some tmpw =>
                match GF.div 1 sigma_m with
                | none => none
                | some sminv =>
                  let y1 := (w.map (fun wi => wi * sminv)) ++ [-sminv]
                    ++ List.replicate (n - w.length) 0
                  match (List.range' 0 (m + 1)).mapM (fun i => do
                      let sa ← syn.get? (n + v + 1 + i)
                      let s4 ← sliceI syn (v + i) (2 * v - 1 + i)
                      some (sa - dotGF s4 tmpw)) with
                  | none => none
                  | some gamma0 =>
                    match foldRangeM 0 (m + 1) (fun g i => do
                        let g1 ← foldRangeM 0 i (fun g j => do
                          let gj ← g.get? j
                          let gi ← g.get? i
                          let sij ← sigma.get? (i - j)
                          setP g i (gi - sij * gj)) g
                        let gi ← g1.get? i
                        let s0 ← sigma.get? 0
                        let q ← GF.div gi s0
                        setP g1 i q) gamma0 with
                    | none => none
                    | some gamma =>
                      let tmp2 := tmpw ++ List.replicate (n + 1 - tmpw.length) 0
                      match foldRangeM 0 (m + 1) (fun tw i => do
                          let gi ← gamma.get? i
                          let pre := tw.take (m - i)
                          let post := tw.drop (m - i)
                          let post2 := (List.zipWith
                            (fun ti wj => ti + gi * wj) post w)
                            ++ post.drop w.length
                          let tw1 := pre ++ post2
                          let cur ← tw1.get? (m - i + v)
                          setP tw1 (m - i + v) (cur - gi)) tmp2 with
                      | none => none
                      | some w2 => ldLoop syn t f (n + 1) y1 w2
    else some w

/-- Fn find_inv_error_locations_levinson_durbin: the initial v, y and w,
then the while loop; returns the error locator coefficients w ++ [1]. The
source function never constructs an error value. -/
def levinsonDurbin (syn : List GF) : Option (List GF) := do
  let t := syn.length / 2
  let v := (syn.takeWhile (fun s => s = 0)).length + 1
  let s0 ← syn.get? (v - 1)
  let y0 ← GF.div 1 s0
  let _y := y0 :: List.replicate (v - 1) (0 : GF)
  let w0 ← sliceI syn v (2 * v - 1)
  let winit := w0.reverse
  let w ← foldRangeM 0 v (fun w i => do
      let w1 ← foldRangeM (v - i) v (fun w j => do
        let wj ← w.get? j
        let cur ← w.get? (v - 1 - i)
        let sij ← syn.get? (i + j)
        setP w (v - 1 - i) (cur - sij * wj)) w
      let cur ← w1.get? (v - 1 - i)
      let sv ← syn.get? (v - 1)
      let q ← GF.div cur sv
      setP w1 (v - 1 - i) q) winit
  let wfinal ← ldLoop syn t (t + 1) v _y w
  some (wfinal ++ [1])

/-- Fn find_error_values_bp: invert the zeros, solve the Vandermonde system
with the Bjoerck-Pereyra passes, then the diagonal. Returns the error
locations and the error values (the mutated syndrome buffer). -/
def find_error_values_bp (x_loc : List GF) (syn : List GF) :
    Option (List GF × List GF) := do
  let xs ← x_loc.mapM (fun z => GF.div 1 z)
  let e := xs.length
  let syn1 ← foldRangeM 0 (e - 1) (fun s k => do
      let xk ← xs.get? k
      (List.range' (k + 1) (e - (k + 1))).reverse.foldlM (fun s j => do
        let tmp ← s.get? (j - 1)
        let sj ← s.get? j
        setP s j (sj - xk * tmp)) s) syn
  let syn2 ← (List.range' 0 (e - 1)).reverse.foldlM (fun s k => do
      let s1 ← foldRangeM (k + 1) e (fun s j => do
        let sj ← s.get? j
        let xj ← xs.get? j
        let xjk ← xs.get? (j - k - 1)
        let q ← GF.div sj (xj - xjk)
        setP s j q) s
      foldRangeM k (e - 1) (fun s j => do
        let tmp ← s.get? (j + 1)
        let sj ← s.get? j
        setP s j (sj - tmp)) s1) syn1
  let syn3 ← foldRangeM 0 e (fun s i => do
      let si ← s.get? i
      let xi ← xs.get? i
      let q ← GF.div si xi
      setP s i q) syn2
  some (xs, syn3)

/-- The malfunction consistency check of decode_gen (step 2b): every
windowed dot product of the remaining syndromes with the locator must be
zero. The index bound 2t - v - 1 underflows in the source when v + 1 > 2t;
the loop is empty when v = t. -/
def malfunctionCheck (syn lambda : List GF) (t v : Nat) : Option Bool :=
  if 2 * t < v + 1 then none
  else some ((List.range' t (2 * t - v - 1 + 1 - t)).all
    (fun j => dotGF (syn.drop j) lambda = 0))

/-- Step 4 of decode_gen: walk the error locations and subtract the error
values inside the strided data or error view. The log of a zero location and
an out-of-bounds write abort; a location index at or beyond the block length
reports ErrorsOutsideRange. -/
def applyCorrections (n stride : Nat) :
    List (GF × GF) → List GF → List GF →
    Option (Except ErrorDecodingError (List GF × List GF))
  | [], data, error => some (.ok (data, error))
  | (loc, err) :: rest, data, error =>
    if loc = 0 then none
    else
      let i := logT loc.val
      if n ≤ i then some (.error .ErrorsOutsideRange)
      else
        let idx := (n - i - 1) * stride
        if h : idx < data.length then
          applyCorrections n stride rest
            (data.set idx (data.get ⟨idx, h⟩ - err)) error
        else
          let idx2 := idx - data.length
          if h2 : idx2 < error.length then
            applyCorrections n stride rest data
              (error.set idx2 (error.get ⟨idx2, h2⟩ - err))
          else none

/-- Fn decode_gen of syndrome_based.rs, specialised to the wired-in
find_inv_error_locations_levinson_durbin and find_error_values_bp, on the
strided views data and error. -/
def decode_gen (data error : List GF) (stride err_len : Nat) :
    Option (Except ErrorDecodingError (List GF × List GF)) :=
  let n_data := (data.length + stride - 1) / stride
  let n_error := (error.length + stride - 1) / stride
  let n := n_data + n_error
  if err_len < 1 then none
  else if n ≤ err_len then none
  else
    let received := stepBy data stride ++ stepBy error stride
    let pe := primitive_element_evaluation received err_len
    if pe.2 = false then some (.ok (data, error))
    else
      match levinsonDurbin pe.1 with
      | none => none
      | some lambda =>
        match chien_search lambda with
        | none => none
        | some inv_locs =>
          if inv_locs.length ≠ lambda.length - 1 then some (.error .Malfunction)
          else
            match inv_locs.get? 0 with
            | none => none
            | some z0 =>
              if z0 = 0 then some (.error .Malfunction)
              else
                let t := err_len / 2
                let v := lambda.length - 1
                match malfunctionCheck pe.1 lambda t v with
                | none => none
                | some false => some (.error .Malfunction)
                | some true =>
                  match find_error_values_bp inv_locs pe.1 with
                  | none => none
                  | some (locs, vals) =>
                    applyCorrections n stride (locs.zip vals) data error

/-- The per-block loop of fn decode (syndrome_based.rs): each block works on
the views data[block..] and error[block..]; each block only writes at
offsets that are multiples of the stride inside its view, so writing the
updated views back over the suffix is the in-place mutation of the source. -/
def decodeBlocks (stride err_len : Nat) :
    List Nat → List GF → List GF →
    Option (Except ErrorDecodingError (List GF × List GF))
  | [], data, error => some (.ok (data, error))
  | b :: rest, data, error =>
    match decode_gen (data.drop b) (error.drop b) stride err_len with
    | none => none
    | some (.error e) => some (.error e)
    | some (.ok (d2, e2)) =>
      decodeBlocks stride err_len rest (data.take b ++ d2) (error.take b ++ e2)

/-- Fn decode of syndrome_based.rs: split the codewords into the data and
error parts and run decode_gen per block, correcting in place. -/
def decodeRS (codewords : List GF) (size : SymbolSize) :
    Option (Except ErrorDecodingError (List GF)) :=
  let setup := size.block_setup
  let num_data := size.num_data_codewords
  if num_data ≤ codewords.length then
    match decodeBlocks setup.num_ecc_blocks setup.num_ecc_per_block
      (List.range setup.num_ecc_blocks)
      (codewords.take num_data) (codewords.drop num_data) with
    | none => none
    | some (.error e) => some (.error e)
    | some (.ok (d, er)) => some (.ok (d ++ er))
  else none

theorem applyCorrections_ne_tme (n stride : Nat) :
    ∀ (l : List (GF × GF)) (data error : List GF),
    applyCorrections n stride l data error
      ≠ some (.error .TooManyErrors) := by
  intro l
  induction l with
  | nil => intro data error h; simp [applyCorrections] at h
  | cons p rest ih =>
      intro data error h
      obtain ⟨loc, err⟩ := p
      rw [applyCorrections] at h
      simp only [] at h
      split at h
      · simp at h
      · split at h
        · simp at h
        · split at h
          · exact ih _ _ h
          · split at h
            · exact ih _ _ h
            · simp at h

/-- The wired decode_gen path never produces the TooManyErrors kind: its
only error returns are Malfunction and ErrorsOutsideRange, and the
Levinson-Durbin locator search never returns an error at all. -/
theorem decode_gen_ne_tme (data error : List GF) (stride err_len : Nat) :
    decode_gen data error stride err_len
      ≠ some (.error .TooManyErrors) := by
  intro h
  rw [decode_gen] at h
  simp only [] at h
  repeat' split at h
  all_goals
    first
      | simp at h
      | exact applyCorrections_ne_tme _ _ _ _ _ h

theorem decodeBlocks_ne_tme (stride err_len : Nat) :
    ∀ (bs : List Nat) (data error : List GF),
    decodeBlocks stride err_len bs data error
      ≠ some (.error .TooManyErrors) := by
  intro bs
  induction bs with
  | nil => intro data error h; simp [decodeBlocks] at h
  | cons b rest ih =>
      intro data error h
      rw [decodeBlocks] at h
      split at h
      · simp at h
      · rename_i heq
        simp only [Option.some_inj] at h
        rw [h] at heq
        exact decode_gen_ne_tme _ _ _ _ heq
      · exact ih _ _ h

/-- The decoder entry point never produces the TooManyErrors kind either. -/
theorem decodeRS_ne_tme (codewords : List GF) (size : SymbolSize) :
    decodeRS codewords size ≠ some (.error .TooManyErrors) := by
  intro h
  rw [decodeRS] at h
  split at h
  · split at h
    · simp at h
    · rename_i heq
      simp only [Option.some_inj] at h
      injection h with h2
      rw [h2] at heq
      exact decodeBlocks_ne_tme _ _ _ _ _ heq
    · simp at h
  · simp at h

/-! ## Supporting definitions for the claim theorems -/

/-- Bit mask with the n lowest bits set: the fully visited content area. -/
def fullMask (n : Nat) : Nat := (1 <<< n) - 1

/-- The four modules of the lower-right 2x2 padding pattern of an h x w
content area (the cells MatrixMap::write_padding touches). -/
def paddingMask (h w : Nat) : Nat :=
  (1 <<< ((h - 2) * w + (w - 2))) ||| (1 <<< ((h - 2) * w + (w - 1)))
    ||| (1 <<< ((h - 1) * w + (w - 2))) ||| (1 <<< ((h - 1) * w + (w - 1)))

/-- The set of content modules the placement traversal is expected to visit:
everything except, for the four sizes with padding modules, the 2x2 padding
corner. -/
def expectedTravMask (s : SymbolSize) : Nat :=
  let bs := s.block_setup
  let h := bs.content_height
  let w := bs.content_width
  if s.has_padding_modules then fullMask (h * w) ^^^ paddingMask h w
  else fullMask (h * w)

/-- Full correctness check of the traversal for one symbol size: it
terminates without out-of-bounds access, never assigns a module twice,
emits exactly num_codewords placements, and covers exactly the expected
module set. -/
def traversalCheck (s : SymbolSize) : Bool :=
  match traversalRun s with
  | none => false
  | some st =>
    !st.dup && !st.oob && (st.count == s.num_codewords)
      && (st.mask == expectedTravMask s)

/-- The closed form of the padding loop: slot at 1-based position p gets the
randomized 253-state value for p. -/
theorem add_padding_loop_eq (cw : List Nat) (k : Nat) :
    add_padding_loop cw k
      = cw ++ (List.range' (cw.length + 1) k).map randomize_253_state := by
  induction k generalizing cw with
  | zero => simp [add_padding_loop]
  | succ n ih =>
      rw [add_padding_loop, ih, List.range'_succ]
      simp [List.append_assoc]

/-! ## The claim theorems -/

/-- C3 (counterexample): the claim that the traversal visits every module of
the content area exactly once fails for Square12: module 99, the lower right
corner of its 10 x 10 content area, is visited by no placement at all. -/
theorem claim_C3_counterexample :
    99 < (SymbolSize.Square12.block_setup).content_width *
        (SymbolSize.Square12.block_setup).content_height
    ∧ Option.map (fun st => st.mask.testBit 99)
        (traversalRun SymbolSize.Square12) = some false := by
  constructor
  · decide
  · decide

set_option maxHeartbeats 12000000 in
/-- The traversal check holds for Square10. -/
theorem trav_ok_Square10 : traversalCheck SymbolSize.Square10 = true := by decide

set_option maxHeartbeats 12000000 in
/-- The traversal check holds for Square12. -/
theorem trav_ok_Square12 : traversalCheck SymbolSize.Square12 = true := by decide

set_option maxHeartbeats 12000000 in
/-- The traversal check holds for Rect8x18. -/
theorem trav_ok_Rect8x18 : traversalCheck SymbolSize.Rect8x18 = true := by decide

set_option maxHeartbeats 12000000 in
/-- The traversal check holds for Square14. -/
theorem trav_ok_Square14 : traversalCheck SymbolSize.Square14 = true := by decide

set_option maxHeartbeats 12000000 in
/-- The traversal check holds for Rect8x32. -/
theorem trav_ok_Rect8x32 : traversalCheck SymbolSize.Rect8x32 = true := by decide

set_option maxHeartbeats 12000000 in
/-- The traversal check holds for Square16. -/
theorem trav_ok_Square16 : traversalCheck SymbolSize.Square16 = true := by decide

set_option maxHeartbeats 12000000 in
/-- The traversal check holds for Rect12x26. -/
theorem trav_ok_Rect12x26 : traversalCheck SymbolSize.Rect12x26 = true := by decide

set_option maxHeartbeats 12000000 in
/-- The traversal check holds for Square18. -/
theorem trav_ok_Square18 : traversalCheck SymbolSize.Square18 = true := by decide

set_option maxHeartbeats 12000000 in
/-- The traversal check holds for Rect8x48. -/
theorem trav_ok_Rect8x48 : traversalCheck SymbolSize.Rect8x48 = true := by decide

set_option maxHeartbeats 12000000 in
/-- The traversal check holds for Square20. -/
theorem trav_ok_Square20 : traversalCheck SymbolSize.Square20 = true := by decide

set_option maxHeartbeats 12000000 in
/-- The traversal check holds for Rect12x36. -/
theorem trav_ok_Rect12x36 : traversalCheck SymbolSize.Rect12x36 = true := by decide

set_option maxHeartbeats 12000000 in
/-- The traversal check holds for Rect8x64. -/
theorem trav_ok_Rect8x64 : traversalCheck SymbolSize.Rect8x64 = true := by decide

set_option maxHeartbeats 12000000 in
/-- The traversal check holds for Square22. -/
theorem trav_ok_Square22 : traversalCheck SymbolSize.Square22 = true := by decide

set_option maxHeartbeats 12000000 in
/-- The traversal check holds for Rect16x36. -/
theorem trav_ok_Rect16x36 : traversalCheck SymbolSize.Rect16x36 = true := by decide

set_option maxHeartbeats 12000000 in
/-- The traversal check holds for Rect8x80. -/
theorem trav_ok_Rect8x80 : traversalCheck SymbolSize.Rect8x80 = true := by decide

set_option maxHeartbeats 12000000 in
/-- The traversal check holds for Square24. -/
theorem trav_ok_Square24 : traversalCheck SymbolSize.Square24 = true := by decide

set_option maxHeartbeats 12000000 in
/-- The traversal check holds for Rect8x96. -/
theorem trav_ok_Rect8x96 : traversalCheck SymbolSize.Rect8x96 = true := by decide

set_option maxHeartbeats 12000000 in
/-- The traversal check holds for Rect12x64. -/
theorem trav_ok_Rect12x64 : traversalCheck SymbolSize.Rect12x64 = true := by decide

set_option maxHeartbeats 12000000 in
/-- The traversal check holds for Square26. -/
theorem trav_ok_Square26 : traversalCheck SymbolSize.Square26 = true := by decide

set_option maxHeartbeats 12000000 in
/-- The traversal check holds for Rect20x36. -/
theorem trav_ok_Rect20x36 : traversalCheck SymbolSize.Rect20x36 = true := by decide

set_option maxHeartbeats 12000000 in
/-- The traversal check holds for Rect16x48. -/
theorem trav_ok_Rect16x48 : traversalCheck SymbolSize.Rect16x48 = true := by decide

set_option maxHeartbeats 12000000 in
/-- The traversal check holds for Rect8x120. -/
theorem trav_ok_Rect8x120 : traversalCheck SymbolSize.Rect8x120 = true := by decide

set_option maxHeartbeats 12000000 in
/-- The traversal check holds for Rect20x44. -/
theorem trav_ok_Rect20x44 : traversalCheck SymbolSize.Rect20x44 = true := by decide

set_option maxHeartbeats 12000000 in
/-- The traversal check holds for Square32. -/
theorem trav_ok_Square32 : traversalCheck SymbolSize.Square32 = true := by decide

set_option maxHeartbeats 12000000 in
/-- The traversal check holds for Rect16x64. -/
theorem trav_ok_Rect16x64 : traversalCheck SymbolSize.Rect16x64 = true := by decide

set_option maxHeartbeats 12000000 in
/-- The traversal check holds for Rect8x144. -/
theorem trav_ok_Rect8x144 : traversalCheck SymbolSize.Rect8x144 = true := by decide

set_option maxHeartbeats 12000000 in
/-- The traversal check holds for Rect12x88. -/
theorem trav_ok_Rect12x88 : traversalCheck SymbolSize.Rect12x88 = true := by decide

set_option maxHeartbeats 12000000 in
/-- The traversal check holds for Rect26x40. -/
theorem trav_ok_Rect26x40 : traversalCheck SymbolSize.Rect26x40 = true := by decide

set_option maxHeartbeats 12000000 in
/-- The traversal check holds for Rect22x48. -/
theorem trav_ok_Rect22x48 : traversalCheck SymbolSize.Rect22x48 = true := by decide

set_option maxHeartbeats 12000000 in
/-- The traversal check holds for Rect24x48. -/
theorem trav_ok_Rect24x48 : traversalCheck SymbolSize.Rect24x48 = true := by decide

set_option maxHeartbeats 12000000 in
/-- The traversal check holds for Rect20x64. -/
theorem trav_ok_Rect20x64 : traversalCheck SymbolSize.Rect20x64 = true := by decide

set_option maxHeartbeats 12000000 in
/-- The traversal check holds for Square36. -/
theorem trav_ok_Square36 : traversalCheck SymbolSize.Square36 = true := by decide

set_option maxHeartbeats 12000000 in
/-- The traversal check holds for Rect26x48. -/
theorem trav_ok_Rect26x48 : traversalCheck SymbolSize.Rect26x48 = true := by decide

set_option maxHeartbeats 12000000 in
/-- The traversal check holds for Rect24x64. -/
theorem trav_ok_Rect24x64 : traversalCheck SymbolSize.Rect24x64 = true := by decide

set_option maxHeartbeats 12000000 in
/-- The traversal check holds for Square40. -/
theorem trav_ok_Square40 : traversalCheck SymbolSize.Square40 = true := by decide

set_option maxHeartbeats 12000000 in
/-- The traversal check holds for Rect26x64. -/
theorem trav_ok_Rect26x64 : traversalCheck SymbolSize.Rect26x64 = true := by decide

set_option maxHeartbeats 12000000 in
/-- The traversal check holds for Square44. -/
theorem trav_ok_Square44 : traversalCheck SymbolSize.Square44 = true := by decide

set_option maxHeartbeats 12000000 in
/-- The traversal check holds for Square48. -/
theorem trav_ok_Square48 : traversalCheck SymbolSize.Square48 = true := by decide

set_option maxHeartbeats 12000000 in
/-- The traversal check holds for Square52. -/
theorem trav_ok_Square52 : traversalCheck SymbolSize.Square52 = true := by decide

set_option maxHeartbeats 12000000 in
/-- The traversal check holds for Square64. -/
theorem trav_ok_Square64 : traversalCheck SymbolSize.Square64 = true := by decide

set_option maxHeartbeats 12000000 in
/-- The traversal check holds for Square72. -/
theorem trav_ok_Square72 : traversalCheck SymbolSize.Square72 = true := by decide

set_option maxHeartbeats 12000000 in
/-- The traversal check holds for Square80. -/
theorem trav_ok_Square80 : traversalCheck SymbolSize.Square80 = true := by decide

set_option maxHeartbeats 12000000 in
/-- The traversal check holds for Square88. -/
theorem trav_ok_Square88 : traversalCheck SymbolSize.Square88 = true := by decide

set_option maxHeartbeats 12000000 in
/-- The traversal check holds for Square96. -/
theorem trav_ok_Square96 : traversalCheck SymbolSize.Square96 = true := by decide

set_option maxHeartbeats 12000000 in
/-- The traversal check holds for Square104. -/
theorem trav_ok_Square104 : traversalCheck SymbolSize.Square104 = true := by decide

set_option maxHeartbeats 12000000 in
/-- The traversal check holds for Square120. -/
theorem trav_ok_Square120 : traversalCheck SymbolSize.Square120 = true := by decide

set_option maxHeartbeats 12000000 in
/-- The traversal check holds for Square132. -/
theorem trav_ok_Square132 : traversalCheck SymbolSize.Square132 = true := by decide

set_option maxHeartbeats 12000000 in
/-- The traversal check holds for Square144. -/
theorem trav_ok_Square144 : traversalCheck SymbolSize.Square144 = true := by decide

/-- C3 (amended): for every symbol size the placement traversal runs to
completion without any out-of-bounds access, emits exactly num_codewords
placements, assigns no module twice, and assigns every module of the
Wc x Hc content area exactly once, except that for the four sizes with
padding modules (Square12, Square16, Square20, Square24) the four modules of
the lower-right 2x2 padding pattern are assigned by no placement. -/
theorem claim_C3 : SYMBOL_SIZES.all traversalCheck = true := by
  simp only [SYMBOL_SIZES, List.all_cons, List.all_nil, Bool.true_and,
    trav_ok_Square10, trav_ok_Square12, trav_ok_Rect8x18, trav_ok_Square14, trav_ok_Rect8x32, trav_ok_Square16, trav_ok_Rect12x26, trav_ok_Square18, trav_ok_Rect8x48, trav_ok_Square20, trav_ok_Rect12x36, trav_ok_Rect8x64, trav_ok_Square22, trav_ok_Rect16x36, trav_ok_Rect8x80, trav_ok_Square24, trav_ok_Rect8x96, trav_ok_Rect12x64, trav_ok_Square26, trav_ok_Rect20x36, trav_ok_Rect16x48, trav_ok_Rect8x120, trav_ok_Rect20x44, trav_ok_Square32, trav_ok_Rect16x64, trav_ok_Rect8x144, trav_ok_Rect12x88, trav_ok_Rect26x40, trav_ok_Rect22x48, trav_ok_Rect24x48, trav_ok_Rect20x64, trav_ok_Square36, trav_ok_Rect26x48, trav_ok_Rect24x64, trav_ok_Square40, trav_ok_Rect26x64, trav_ok_Square44, trav_ok_Square48, trav_ok_Square52, trav_ok_Square64, trav_ok_Square72, trav_ok_Square80, trav_ok_Square88, trav_ok_Square96, trav_ok_Square104, trav_ok_Square120, trav_ok_Square132, trav_ok_Square144]

/-- C5: for every entry of the symbol catalog, eight times the total
codeword count plus the four padding modules (when present) equals the
content area Wc x Hc. -/
theorem claim_C5 : ∀ s : SymbolSize, s ∈ SYMBOL_SIZES ∧
    8 * (s.num_data_codewords +
        (s.block_setup).num_ecc_blocks * (s.block_setup).num_ecc_per_block)
      + (if s.has_padding_modules then 4 else 0)
      = (s.block_setup).content_width * (s.block_setup).content_height := by
  intro s
  cases s <;> exact ⟨by decide, by decide⟩

/-- C9: the claim that the ECI charset converters are total (returning the
conversion or CharsetError) fails on the code: decode_iso_8859_9 indexes its
96-entry table with ch - 128, so the valid ISO-8859-9 byte 0xFF = 255 runs
off the table (index 127) and aborts; likewise decode_iso_8859_11 with its
88-entry table on byte 0xE0 = 224 (index 96). The embedding returns none
exactly where the Rust code panics on an out-of-bounds index. -/
theorem claim_C9 :
    decode_iso_8859_9 [255] = none ∧ decode_iso_8859_11 [224] = none ∧
    ISO_8859_9.length = 96 ∧ ISO_8859_11.length = 88 := by
  refine ⟨by decide, by decide, by decide, by decide⟩

/-- C10: the 255-state derandomization inverts the 255-state randomization
at every byte and every 1-based position, in both directions, so the
randomizer is a bijection on bytes at every position. -/
theorem claim_C10 (b p : Nat) (hb : b < 256) :
    derandomize_255_state (randomize_255_state b p) p = b
    ∧ randomize_255_state (derandomize_255_state b p) p = b := by
  unfold randomize_255_state derandomize_255_state
  simp only []
  constructor <;> split <;> split <;> omega

/-- C10 witness at byte 171, position 1. -/
theorem claim_C10_witness :
    171 < 256 ∧ (derandomize_255_state (randomize_255_state 171 1) 1 = 171
      ∧ randomize_255_state (derandomize_255_state 171 1) 1 = 171) :=
  ⟨by decide, claim_C10 171 1 (by decide)⟩

/-- C4: for every symbol size and every data vector of the right length,
every interleaved block of the vector data followed by its interleaved error
codewords from encode_error evaluates to zero at x, x^2, ..., x^Ne. -/
theorem claim_C4 (size : SymbolSize) (data : List GF)
    (hlen : data.length = size.num_data_codewords)
    (b : Nat) (hb : b < (size.block_setup).num_ecc_blocks)
    (i : Nat) (hi1 : 1 ≤ i) (hi2 : i ≤ (size.block_setup).num_ecc_per_block) :
    polyEval (stepBy (data.drop b) (size.block_setup).num_ecc_blocks
      ++ stepBy ((encode_error data size).drop b)
          (size.block_setup).num_ecc_blocks) (GF.x ^ i) = 0 :=
  encode_error_syndromes size data b hb i hi1 hi2

/-- C4 witness: the data block 23, 40, 11 of the repo test in a Square10
symbol has zero first syndrome. -/
theorem claim_C4_witness :
    (List.map byteToGF [23, 40, 11]).length
        = SymbolSize.Square10.num_data_codewords
    ∧ 0 < (SymbolSize.Square10.block_setup).num_ecc_blocks
    ∧ 1 ≤ (SymbolSize.Square10.block_setup).num_ecc_per_block
    ∧ polyEval (stepBy ((List.map byteToGF [23, 40, 11]).drop 0)
        (SymbolSize.Square10.block_setup).num_ecc_blocks
      ++ stepBy ((encode_error (List.map byteToGF [23, 40, 11])
          SymbolSize.Square10).drop 0)
        (SymbolSize.Square10.block_setup).num_ecc_blocks) (GF.x ^ 1) = 0 :=
  ⟨by decide, by decide, by decide,
    claim_C4 SymbolSize.Square10 (List.map byteToGF [23, 40, 11]) (by decide)
      0 (by decide) 1 (by decide) (by decide)⟩

/-- C8 (counterexample): a received word for Square10 (error capacity
Ne / 2 = 2) that differs from a valid codeword vector in three positions
makes the decoder fail with Malfunction, not TooManyErrors. -/
theorem claim_C8_counterexample :
    ((List.range 8).filter (fun i =>
        (List.map byteToGF [230, 2, 3, 17, 46, 95, 0, 32]).get? i
          ≠ (List.map byteToGF [1, 2, 3]
              ++ encode_error (List.map byteToGF [1, 2, 3])
                SymbolSize.Square10).get? i)).length = 3
    ∧ (SymbolSize.Square10.block_setup).num_ecc_per_block / 2 = 2
    ∧ decodeRS (List.map byteToGF [230, 2, 3, 17, 46, 95, 0, 32])
        SymbolSize.Square10
      = some (.error ErrorDecodingError.Malfunction) := by
  refine ⟨by decide, by decide, by decide⟩

/-- C8 (amended): the wired syndrome-based decoder (decode_gen with the
Levinson-Durbin locator search and the Bjoerck-Pereyra solver, and the
per-block decode entry point) never reports the TooManyErrors kind; overload
failures surface as Malfunction or ErrorsOutsideRange instead (TooManyErrors
is only constructed by the unused Berlekamp-Massey and LU reference
implementations). -/
theorem claim_C8 :
    (∀ (data error : List GF) (stride err_len : Nat),
      decode_gen data error stride err_len
        ≠ some (.error ErrorDecodingError.TooManyErrors))
    ∧ (∀ (codewords : List GF) (size : SymbolSize),
      decodeRS codewords size
        ≠ some (.error ErrorDecodingError.TooManyErrors)) :=
  ⟨fun data error stride err_len => decode_gen_ne_tme data error stride err_len,
   fun codewords size => decodeRS_ne_tme codewords size⟩

theorem read_eci_one (ch1 : Nat) (rest : List Nat)
    (h : 1 ≤ ch1 ∧ ch1 ≤ 127) :
    read_eci (ch1 :: rest) = .ok (ch1 - 1, rest) := by
  simp only [read_eci]
  rw [if_pos h]

theorem read_eci_two (ch1 ch2 : Nat) (rest : List Nat)
    (h1 : 128 ≤ ch1 ∧ ch1 ≤ 191) (h2 : 1 ≤ ch2 ∧ ch2 ≤ 254) :
    read_eci (ch1 :: ch2 :: rest)
      = .ok ((ch1 - 128) * 254 + (ch2 - 1) + 127, rest) := by
  simp only [read_eci]
  rw [if_neg (by omega), if_pos h1, if_pos h2]

theorem read_eci_three (ch1 ch2 ch3 : Nat) (rest : List Nat)
    (h1 : 192 ≤ ch1 ∧ ch1 ≤ 207) (h2 : 1 ≤ ch2 ∧ ch2 ≤ 254) :
    read_eci (ch1 :: ch2 :: ch3 :: rest)
      = .ok ((ch1 - 192) * 64516 + (ch2 - 1) * 254 + (ch3 - 1) + 16383,
          rest) := by
  simp only [read_eci]
  rw [if_neg (by omega), if_neg (by omega), if_pos h1, if_pos h2, if_pos h2]

/-- C7: for every ECI value up to 999999 the encoder emits the escape
codeword 241 followed by one codeword c + 1 for c up to 126, two codewords
with first byte in 128..=191 up to 16382, and three codewords with first
byte in 192..=207 otherwise, and read_eci recovers exactly c from the
emitted codewords. -/
theorem claim_C7 (c : Nat) (hc : c ≤ 999999) :
    ∃ body : List Nat, write_eci c = some (ECI_ESCAPE :: body)
      ∧ read_eci body = .ok (c, [])
      ∧ (c ≤ 126 → body = [c + 1])
      ∧ (126 < c → c ≤ 16382 → body.length = 2
          ∧ 128 ≤ body.headD 0 ∧ body.headD 0 ≤ 191)
      ∧ (16382 < c → body.length = 3
          ∧ 192 ≤ body.headD 0 ∧ body.headD 0 ≤ 207) := by
  by_cases h1 : c ≤ 126
  · refine ⟨[c + 1], ?_, ?_, fun _ => rfl, by omega, by omega⟩
    · rw [write_eci, if_pos h1]
    · rw [read_eci_one _ _ (by omega)]
      simp
  · by_cases h2 : c ≤ 16382
    · refine ⟨[(c - 127) / 254 + 128, (c - 127) % 254 + 1], ?_, ?_, by omega,
        ?_, by omega⟩
      · rw [write_eci, if_neg h1, if_pos h2]
      · rw [read_eci_two _ _ _ (by omega) (by omega)]
        congr 1
        congr 1
        omega
      · intro _ _
        refine ⟨rfl, ?_, ?_⟩ <;> simp only [List.headD_cons] <;> omega
    · have h3 : c ≤ 999999 := hc
      refine ⟨[(c - 16383) / 64516 + 192, (c - 16383) / 254 % 254 + 1,
        (c - 16383) % 254 + 1], ?_, ?_, by omega, by omega, ?_⟩
      · rw [write_eci, if_neg h1, if_neg h2, if_pos h3]
      · rw [read_eci_three _ _ _ _ (by omega) (by omega)]
        congr 1
        congr 1
        omega
      · intro _
        refine ⟨rfl, ?_, ?_⟩ <;> simp only [List.headD_cons] <;> omega

/-- C7 witness at the largest value 999999. -/
theorem claim_C7_witness :
    999999 ≤ 999999
    ∧ ∃ body : List Nat, write_eci 999999 = some (ECI_ESCAPE :: body)
      ∧ read_eci body = .ok (999999, [])
      ∧ (999999 ≤ 126 → body = [999999 + 1])
      ∧ (126 < 999999 → 999999 ≤ 16382 → body.length = 2
          ∧ 128 ≤ body.headD 0 ∧ body.headD 0 ≤ 191)
      ∧ (16382 < 999999 → body.length = 3
          ∧ 192 ≤ body.headD 0 ∧ body.headD 0 ≤ 207) :=
  ⟨by decide, claim_C7 999999 (by decide)⟩

/-- Closed form of add_padding whenever free codeword slots remain: an
UNLATCH first when the mode is not Ascii, then a PAD when a slot is still
free, then the randomized 253-state values, one per remaining slot. -/
theorem add_padding_eq (m : EncodationType) (cw : List Nat) (s : SymbolSize)
    (hfree : cw.length < s.num_data_codewords) :
    add_padding m cw s =
      if m = EncodationType.Ascii then
        cw ++ [PAD] ++ (List.range' (cw.length + 2)
          (s.num_data_codewords - cw.length - 1)).map randomize_253_state
      else if cw.length + 1 = s.num_data_codewords then cw ++ [UNLATCH]
      else cw ++ [UNLATCH, PAD] ++ (List.range' (cw.length + 3)
          (s.num_data_codewords - cw.length - 2)).map randomize_253_state := by
  rw [add_padding]
  simp only []
  split
  · next h => exact absurd h (by omega)
  · next h =>
    split
    · next hm =>
      split
      · next hpos =>
        rw [add_padding_loop_eq]
        rw [if_neg (show ¬(cw.length + 1 = s.num_data_codewords) by omega)]
        simp only [List.length_append, List.length_cons, List.length_nil,
          List.append_assoc, List.cons_append, List.nil_append]
        congr 2
      · next hnpos =>
        rw [add_padding_loop_eq]
        rw [if_pos (show cw.length + 1 = s.num_data_codewords by omega)]
        simp [show s.num_data_codewords - cw.length - 1 = 0 by omega]
    · next hm =>
      simp only [if_pos hm]
      split
      · next hpos =>
        rw [add_padding_loop_eq]
        rw [if_pos (not_not.mp hm)]
        simp only [List.length_append, List.length_cons, List.length_nil,
          List.append_assoc, List.cons_append, List.nil_append]
      · next hnpos =>
        exact absurd (by omega : s.num_data_codewords - cw.length > 0) hnpos

/-- C6: whenever free codeword slots remain after data encoding, add_padding
first pushes UNLATCH when the mode is not Ascii, then PAD when a slot is
still free, and fills every remaining slot at 1-based position p with the
randomized 253-state value for p; in particular the empty input with the
default symbol list selects the 10 x 10 Square10 symbol and yields the data
codewords 129, 175, 70. -/
theorem claim_C6 (m : EncodationType) (cw : List Nat) (s : SymbolSize)
    (hfree : cw.length < s.num_data_codewords) :
    (add_padding m cw s =
      if m = EncodationType.Ascii then
        cw ++ [PAD] ++ (List.range' (cw.length + 2)
          (s.num_data_codewords - cw.length - 1)).map randomize_253_state
      else if cw.length + 1 = s.num_data_codewords then cw ++ [UNLATCH]
      else cw ++ [UNLATCH, PAD] ++ (List.range' (cw.length + 3)
          (s.num_data_codewords - cw.length - 2)).map randomize_253_state)
    ∧ first_symbol_big_enough_for defaultSymbolList 0 = some SymbolSize.Square10
    ∧ add_padding EncodationType.Ascii [] SymbolSize.Square10 = [129, 175, 70]
    ∧ (SymbolSize.Square10.block_setup).width = 10
    ∧ (SymbolSize.Square10.block_setup).height = 10 := by
  exact ⟨add_padding_eq m cw s hfree, by decide, by decide, by decide, by decide⟩

/-- C6 witness: one codeword written in C40 mode in a Square10 symbol gets
an UNLATCH and no further padding slot content beyond PAD. -/
theorem claim_C6_witness :
    ([100] : List Nat).length < SymbolSize.Square10.num_data_codewords
    ∧ ((add_padding EncodationType.C40 [100] SymbolSize.Square10 =
      if EncodationType.C40 = EncodationType.Ascii then
        [100] ++ [PAD] ++ (List.range' (([100] : List Nat).length + 2)
          (SymbolSize.Square10.num_data_codewords
            - ([100] : List Nat).length - 1)).map randomize_253_state
      else if ([100] : List Nat).length + 1
          = SymbolSize.Square10.num_data_codewords then [100] ++ [UNLATCH]
      else [100] ++ [UNLATCH, PAD]
        ++ (List.range' (([100] : List Nat).length + 3)
          (SymbolSize.Square10.num_data_codewords
            - ([100] : List Nat).length - 2)).map randomize_253_state)
    ∧ first_symbol_big_enough_for defaultSymbolList 0 = some SymbolSize.Square10
    ∧ add_padding EncodationType.Ascii [] SymbolSize.Square10 = [129, 175, 70]
    ∧ (SymbolSize.Square10.block_setup).width = 10
    ∧ (SymbolSize.Square10.block_setup).height = 10) :=
  ⟨by decide, claim_C6 EncodationType.C40 [100] SymbolSize.Square10 (by decide)⟩
